import Mathlib

/-!
# Conditional correction engine (`cleanup.go`)

A shallow embedding of the rule engine of package `cleanup`:
`CleanupFunc`, its method `calcFunc` and the catalog compiler `CleanupFuncs`,
of the estimator `copernicusModeledSTW`, of the transform primitives
`SetZeroIfWithinEpsilon`, `NegateLatitude`, `NegateLongitude`,
`OverrideLatLonSign`, `OverrideChevronGeneratorPower`, `RemoveBadGPS`,
`NullNoonFeatures` and `NullAllFeatures`, and of the catalog `cleanupFuncs`
of `funcs.go`.

Modelling conventions.
* A Go `time.Time` is its instant, counted in nanoseconds from the zero
  instant (the value of `time.Time{}`); `Before`, `After` and `IsZero`
  compare instants. One time unit is one nanosecond, the resolution of
  `time.Duration`.
* `float64` property values are exact rationals.
* The sample behind the interface `calcapi.PropertyCalc` is an explicit
  state (`Sample`); a transform `func(calcapi.PropertyCalc)` is a state
  transformer `Sample → Sample`. Whether the dynamic value also implements
  `propertyClean` is a tag next to the state, which no transform can change.
* `panic` is `Except.error`; `time.Now()` is an argument of the guard.
* The `log.Debugf` lines and the calls of the two transforms are recorded
  in a trace of `Event`s returned next to the new state.
* The methods of the sample interface, `nmath.ScalarProjection` and the
  label constants live in other packages: the methods are modelled from the
  specification, the cosine and the labels are arguments.
* A function that can panic at run time returns an `Except`.
* The catalog keeps every rule with its `Comment`, `Issue`, `ShipID`,
  `Start`, `End`, `Unconditional` and `Stage`. A transform written with the
  functions of `cleanup.go` or with the modelled methods alone is embedded;
  the others, which call package `calc` or further methods of the sample, are
  arguments, as are the ship constants of package `calc`.
-/

namespace Cleanup

/-! ## Time -/

/-- Instant of a Go `time.Time`, in nanoseconds since the zero instant. -/
structure Time where
  ns : Int
deriving DecidableEq, Repr

/-- The value `time.Time{}`. -/
def Time.zero : Time := ⟨0⟩

/-- Method `IsZero`: the instant is the zero instant. -/
def Time.IsZero (t : Time) : Bool := t.ns == 0

/-- Method `Before`: `t` is strictly earlier than `u`. -/
def Time.Before (t u : Time) : Bool := decide (t.ns < u.ns)

/-- Method `After`: `t` is strictly later than `u`. -/
def Time.After (t u : Time) : Bool := decide (u.ns < t.ns)

/-- Method `Add`: the instant `d` nanoseconds later. -/
def Time.Add (t : Time) (d : Int) : Time := ⟨t.ns + d⟩

/-! ## Samples -/

/-- The part of `models.Ship` the engine reads. -/
structure Ship where
  ID : Int
deriving DecidableEq, Repr

/-- A geographic position, read and written as a pair. -/
structure Position where
  Latitude : Rat
  Longitude : Rat
deriving DecidableEq, Repr

/-- State of one sample: ship, timestamp, named numeric properties with
their unit tags, optional position and the sticky error flag of the
getter interface. -/
structure Sample where
  ship : Ship
  time : Time
  props : String → Option Rat
  units : String → Option String
  position : Option Position
  err : Bool

/-- A value of interface type `calcapi.PropertyCalc`: the sample state and
whether the dynamic value also implements `propertyClean`
(`NullAllProperties`, `NullPrefixedProperties`). -/
structure PropertyCalc where
  sample : Sample
  bulkClear : Bool

/-- Method `GetShip`. -/
def PropertyCalc.GetShip (pc : PropertyCalc) : Ship := pc.sample.ship

/-- Method `Time`. -/
def PropertyCalc.Time (pc : PropertyCalc) : Time := pc.sample.time

/-! ## Rules -/

/-- Type `Stage` is a Go string type. -/
abbrev Stage := String

def PreVesselAnatomyStage : Stage := "pre-vessel-anatomy"

def PostVesselAnatomyStage : Stage := "post-vessel-anatomy"

/-- Struct `CleanupFunc`. An omitted field has the Go zero value; a nil
function is `none`. -/
structure CleanupFunc where
  Comment : String := ""
  Issue : String := ""
  ShipID : Int := 0
  Start : Time := Time.zero
  End : Time := Time.zero
  Unconditional : Bool := false
  Stage : Stage := ""
  CalcFunc : Option (Sample → Sample) := none
  CleanFunc : Option (Sample → Sample) := none

/-- Observable steps of one guard invocation. -/
inductive Event where
  /-- The line `log.Debugf("Cleaning up data on %s for ship %d because of %s", ...)`. -/
  | debugCleaning (time : Time) (ship : Int) (issue : String)
  /-- The call `cfunc.CalcFunc(pc)`. -/
  | callCalcFunc
  /-- The call `cfunc.CleanFunc(c)`. -/
  | callCleanFunc
  /-- The line `log.Debugf("Somehow unable to convert to propertyClean type")`. -/
  | debugNotPropertyClean
deriving DecidableEq, Repr

/-- A compiled guard `func(calcapi.PropertyCalc)`. Its first argument is
the value `time.Now()` returns during the invocation; it returns the
sample after the invocation and the trace of the invocation. -/
abbrev Guard := Time → PropertyCalc → PropertyCalc × List Event

/-- Lines 73-76 of `calcFunc`: the end of the window, `time.Now()` when
`End` is the zero instant. -/
def CleanupFunc.endTime (cfunc : CleanupFunc) (now : Time) : Time :=
  if cfunc.End.IsZero then now else cfunc.End

/-- Lines 80-82 of `calcFunc`: run `CalcFunc` when it is not nil. -/
def CleanupFunc.runCalc (cfunc : CleanupFunc) (pc : PropertyCalc) :
    PropertyCalc × List Event :=
  match cfunc.CalcFunc with
  | some f => ({ pc with sample := f pc.sample }, [Event.callCalcFunc])
  | none => (pc, [])

/-- Lines 84-90 of `calcFunc`: run `CleanFunc` when it is not nil and the
type assertion `pc.(propertyClean)` succeeds. -/
def CleanupFunc.runClean (cfunc : CleanupFunc) (pc : PropertyCalc) :
    PropertyCalc × List Event :=
  match cfunc.CleanFunc with
  | some g =>
    if pc.bulkClear then ({ pc with sample := g pc.sample }, [Event.callCleanFunc])
    else (pc, [Event.debugNotPropertyClean])
  | none => (pc, [])

/-- Lines 79-90 of `calcFunc`: the body of the window test. -/
def CleanupFunc.applyFuncs (cfunc : CleanupFunc) (pc : PropertyCalc) :
    PropertyCalc × List Event :=
  let r1 := cfunc.runCalc pc
  let r2 := cfunc.runClean r1.1
  (r2.1, Event.debugCleaning pc.Time pc.GetShip.ID cfunc.Issue :: (r1.2 ++ r2.2))

/-- Lines 68-92 of `calcFunc`: the closure it returns. -/
def CleanupFunc.guard (cfunc : CleanupFunc) : Guard := fun now pc =>
  if pc.GetShip.ID != cfunc.ShipID then (pc, [])
  else
    let endTime := cfunc.endTime now
    if cfunc.Start.Before pc.Time && endTime.After pc.Time then cfunc.applyFuncs pc
    else (pc, [])

/-- The message of the panic in `calcFunc`. -/
def noIssueMessage : String := "No NAUT issue associated with cleanup calc func"

/-- Method `calcFunc`: panics on an empty `Issue`, else returns the guard. -/
def CleanupFunc.calcFunc (cfunc : CleanupFunc) : Except String Guard :=
  if cfunc.Issue == "" then Except.error noIssueMessage
  else Except.ok cfunc.guard

/-- The loop of `CleanupFuncs` over the rest of the catalog, `calcFuncsToRun`
being the slice built so far. -/
def CleanupFuncs.loop (stage : Stage) (onlyUnconditional : Bool) :
    List CleanupFunc → List Guard → Except String (List Guard)
  | [], calcFuncsToRun => Except.ok calcFuncsToRun
  | cleanupFunc :: rest, calcFuncsToRun =>
    if onlyUnconditional && !cleanupFunc.Unconditional || stage != cleanupFunc.Stage then
      CleanupFuncs.loop stage onlyUnconditional rest calcFuncsToRun
    else
      match cleanupFunc.calcFunc with
      | Except.error e => Except.error e
      | Except.ok g => CleanupFuncs.loop stage onlyUnconditional rest (calcFuncsToRun ++ [g])

/-- Function `CleanupFuncs`, the package variable `cleanupFuncs` (the
catalog) being an argument. -/
def CleanupFuncs (cleanupFuncs : List CleanupFunc) (stage : Stage)
    (onlyUnconditional : Bool) : Except String (List Guard) :=
  CleanupFuncs.loop stage onlyUnconditional cleanupFuncs []

/-- The rules `CleanupFuncs` does not skip: the negation of the `continue`
test of its loop. -/
def selected (stage : Stage) (onlyUnconditional : Bool) (c : CleanupFunc) : Bool :=
  (!onlyUnconditional || c.Unconditional) && c.Stage == stage

/-! ## Concrete rules and samples -/

/-- A sample of ship 7 at instant 150 with one property and a position. -/
def sampleA : Sample :=
  { ship := ⟨7⟩, time := ⟨150⟩,
    props := fun l => if l = "Shaft Speed" then some 80 else none,
    units := fun _ => none,
    position := some ⟨12.5, -70.2⟩,
    err := false }

/-- A transform that writes a property. -/
def setShaftPower : Sample → Sample := fun s =>
  { s with props := fun l => if l = "Shaft Power" then some 3 else s.props l }

/-- A transform that clears every property and the position. -/
def wipe : Sample → Sample := fun s =>
  { s with props := fun _ => none, position := none }

/-- A rule for ship 7 with the window (100, 200) and both transforms. -/
def ruleA : CleanupFunc :=
  { Issue := "NAUT-1", ShipID := 7, Start := ⟨100⟩, End := ⟨200⟩,
    Stage := PreVesselAnatomyStage, CalcFunc := some setShaftPower, CleanFunc := some wipe }

/-- A rule for ship 7 with the start 100 and no end. -/
def ruleB : CleanupFunc :=
  { Issue := "NAUT-2", ShipID := 7, Start := ⟨100⟩, Unconditional := true,
    Stage := PostVesselAnatomyStage, CalcFunc := some setShaftPower }

/-- A rule without issue. -/
def ruleNoIssue : CleanupFunc :=
  { ShipID := 7, Start := ⟨100⟩, End := ⟨200⟩, Unconditional := true,
    Stage := PreVesselAnatomyStage, CalcFunc := some wipe }

/-! ## The sample interface

The methods of `calcapi.PropertyCalc` and `propertyClean` that the transforms
of `cleanup.go` call. Their implementations are outside the source. -/

/-- Modelled from the spec: method `GetProperty` of the getter interface,
whose implementation is not in the source. A read of a present property
returns its value; a read of an absent property returns 0 and records the
error state that `HasError` reports. -/
def Sample.GetProperty (pc : Sample) (label : String) : Rat × Sample :=
  match pc.props label with
  | some v => (v, pc)
  | none => (0, { pc with err := true })

/-- Modelled from the spec: method `HasError` of the getter interface, whose
implementation is not in the source: some read so far met an absent
property. -/
def Sample.HasError (pc : Sample) : Bool := pc.err

/-- Modelled from the spec: method `GetNullableProperty`, whose implementation
is not in the source: the named value, present or absent. -/
def Sample.GetNullableProperty (pc : Sample) (label : String) : Option Rat :=
  pc.props label

/-- Modelled from the spec: method `SetNullableProperty`, whose implementation
is not in the source: write the named value, present or absent. -/
def Sample.SetNullableProperty (pc : Sample) (label : String) (v : Option Rat) : Sample :=
  { pc with props := fun l => if l = label then v else pc.props l }

/-- Modelled from the spec: method `Position`, whose implementation is not in
the source: the position, `none` being the nil pointer. -/
def Sample.Position (pc : Sample) : Option Position := pc.position

/-- Modelled from the spec: method `SetPosition`, whose implementation is not
in the source: write the position as a pair, absent unless both coordinates
are present. -/
def Sample.SetPosition (pc : Sample) (lat lon : Option Rat) : Sample :=
  match lat, lon with
  | some a, some b => { pc with position := some ⟨a, b⟩ }
  | _, _ => { pc with position := none }

/-- Modelled from the spec: method `NullAllProperties` of `propertyClean`,
whose implementation is not in the source: clear every property. -/
def Sample.NullAllProperties (pc : Sample) : Sample :=
  { pc with props := fun _ => none }

/-- Modelled from the spec: method `NullPrefixedProperties` of `propertyClean`,
whose implementation is not in the source: clear every property whose name
carries the given prefix. -/
def Sample.NullPrefixedProperties (pc : Sample) (pfx : String) : Sample :=
  { pc with props := fun l => if pfx.toList.isPrefixOf l.toList then none else pc.props l }

/-- Modelled from the spec: method `SetProperty`, whose implementation is not
in the source: write a present value to the named property. -/
def Sample.SetProperty (pc : Sample) (label : String) (v : Rat) : Sample :=
  { pc with props := fun l => if l = label then some v else pc.props l }

/-- Modelled from the spec: method `SetPropertyWithUnit`, whose implementation
is not in the source: write a present value to the named property together
with its unit tag. -/
def Sample.SetPropertyWithUnit (pc : Sample) (label : String) (v : Rat) (unit : String) :
    Sample :=
  { pc with
    props := fun l => if l = label then some v else pc.props l
    units := fun l => if l = label then some unit else pc.units l }

/-! ## Dates -/

/-- Leap years of the Gregorian calendar. -/
def isLeap (year : Nat) : Bool :=
  year % 4 == 0 && (year % 100 != 0 || year % 400 == 0)

/-- Days from January 1 of year 1 to January 1 of `year`. -/
def daysBeforeYear (year : Nat) : Nat :=
  365 * (year - 1) + (year - 1) / 4 - (year - 1) / 100 + (year - 1) / 400

/-- Days from January 1 of `year` to the first day of `month`. -/
def daysBeforeMonth (year month : Nat) : Nat :=
  [0, 31, 59, 90, 120, 151, 181, 212, 243, 273, 304, 334].getD (month - 1) 0 +
    (if month > 2 && isLeap year then 1 else 0)

/-- The instant of a civil date and time in UTC, as Go's `time.Date` computes
it, in nanoseconds since the zero instant. -/
def Date (year month day hour min sec : Nat) : Time :=
  ⟨(((daysBeforeYear year + daysBeforeMonth year month + (day - 1)) * 86400 +
    hour * 3600 + min * 60 + sec) * 1000000000 : Nat)⟩

/-- Function `parseTime` on a literal of one of the layouts `2006-01-02`,
`2006-01-02 15:04` and `2006-01-02 15:04:05`, read in UTC. The parser
`now.ParseInLocation` is not in the source: the literal is given by its
fields, a field the literal leaves out being 0. -/
def parseTime (year month day hour min sec : Nat) : Time :=
  Date year month day hour min sec

/-! ## The estimator -/

/-- The label constants of packages `labels` and `calc` that
`copernicusModeledSTW` and the rules for issue NAUT-1860 use; their string
values are not in the source. -/
structure Labels where
  Heading : String
  ShaftSpeed : String
  DraftAft : String
  Trim : String
  WS_TrueWindSpeed : String
  WS_TrueWindDir : String
  WS_SeaCurSpeed : String
  WS_SeaCurDir : String
  WS_SigWaveHeight : String
  SpeedThroughWater : String
  SensorSTW : String
  ModeledSTW : String

/-- Modelled from the spec: function `nmath.ScalarProjection`, which is not in
the source: `speed * cos(direction - heading)`. The cosine, on angles in the
unit of the properties, is an argument. -/
def ScalarProjection (cos : Rat → Rat) (speed direction heading : Rat) : Rat :=
  speed * cos (direction - heading)

/-- The slice `coeffs` of `copernicusModeledSTW`. -/
def coeffs : List Rat :=
  [0.191637416, -0.153619789, -0.123217962, -0.324622524,
    0.057272980, 0.044914439, -0.035553420, -0.000633009]

/-- A Go index expression `xs[i]` on a slice: a run-time panic when `i` is out
of range. -/
def index (xs : List Rat) (i : Nat) : Except String Rat :=
  match xs[i]? with
  | some x => Except.ok x
  | none => Except.error "index out of range"

/-- Function `copernicusModeledSTW`. The reads go through the sample in the
order Go evaluates them; the result is the `null.Float` (`none` when not
valid) and the sample after the reads. -/
def copernicusModeledSTW (L : Labels) (cos : Rat → Rat) (pc : Sample) :
    Except String (Option Rat × Sample) := do
  let windSpeed := pc.GetProperty L.WS_TrueWindSpeed
  let windDir := windSpeed.2.GetProperty L.WS_TrueWindDir
  let windHeading := windDir.2.GetProperty L.Heading
  let compositeWind := ScalarProjection cos windSpeed.1 windDir.1 windHeading.1
  let curSpeed := windHeading.2.GetProperty L.WS_SeaCurSpeed
  let curDir := curSpeed.2.GetProperty L.WS_SeaCurDir
  let curHeading := curDir.2.GetProperty L.Heading
  let compositeCurrent := ScalarProjection cos curSpeed.1 curDir.1 curHeading.1
  let c0 ← index coeffs 0
  let shaftSpeed := curHeading.2.GetProperty L.ShaftSpeed
  let c1 ← index coeffs 1
  let draftAft := shaftSpeed.2.GetProperty L.DraftAft
  let c2 ← index coeffs 2
  let trim := draftAft.2.GetProperty L.Trim
  let c3 ← index coeffs 3
  let sigWaveHeight := trim.2.GetProperty L.WS_SigWaveHeight
  let c4 ← index coeffs 4
  let c5 ← index coeffs 5
  let c6 ← index coeffs 6
  let c7 ← index coeffs 7
  let modeled := c0 * shaftSpeed.1 +
    c1 * draftAft.1 +
    c2 * trim.1 +
    c3 * sigWaveHeight.1 +
    c4 * compositeCurrent * compositeCurrent +
    c5 * compositeCurrent +
    c6 * compositeWind +
    c7 * compositeWind * compositeWind +
    1.4246
  if sigWaveHeight.2.HasError then
    return (none, sigWaveHeight.2)
  return (some modeled, sigWaveHeight.2)

/-- The properties `copernicusModeledSTW` reads, in the order of its reads
(the heading is read twice). -/
def requiredInputs (L : Labels) : List String :=
  [L.WS_TrueWindSpeed, L.WS_TrueWindDir, L.Heading, L.WS_SeaCurSpeed, L.WS_SeaCurDir,
    L.ShaftSpeed, L.DraftAft, L.Trim, L.WS_SigWaveHeight]

/-- The model of the estimator as the specification writes it: `c` and `w`
are the projections of the sea current and of the true wind. -/
def specModeledSTW (shaftSpeed draftAft trim waveHeight c w : Rat) : Rat :=
  0.191637416 * shaftSpeed - 0.153619789 * draftAft - 0.123217962 * trim -
    0.324622524 * waveHeight + 0.057272980 * c * c + 0.044914439 * c -
    0.035553420 * w - 0.000633009 * w * w + 1.4246

/-! ## Transform primitives -/

/-- Function `NegateLatitude`. -/
def NegateLatitude (pc : Sample) : Sample :=
  match pc.Position with
  | none => pc
  | some pos => pc.SetPosition (some (-pos.Latitude)) (some pos.Longitude)

/-- Function `NegateLongitude`. It dereferences `pos` without a nil test, a
run-time panic on a sample without position. -/
def NegateLongitude (pc : Sample) : Except String Sample :=
  match pc.Position with
  | none => Except.error "invalid memory address or nil pointer dereference"
  | some pos => Except.ok (pc.SetPosition (some pos.Longitude) (some (-pos.Longitude)))

/-- Function `NullNoonFeatures`; `Noon` is function `labels.Noon`, which is
not in the source. -/
def NullNoonFeatures (Noon : String → String) (pc : Sample) : Sample :=
  pc.NullPrefixedProperties (Noon "")

/-- Function `NullAllFeatures`. -/
def NullAllFeatures (pc : Sample) : Sample :=
  pc.NullAllProperties

/-- Function `SetZeroIfWithinEpsilon`: the closure it returns. The test is
`v.Present() && math.Abs(v.Value()) < epsilon`. -/
def SetZeroIfWithinEpsilon (label : String) (epsilon : Rat) : Sample → Sample := fun pc =>
  match pc.GetNullableProperty label with
  | some v => if |v| < epsilon then pc.SetNullableProperty label (some 0) else pc
  | none => pc

/-- Function `OverrideLatLonSign`. -/
def OverrideLatLonSign (pc : Sample) : Sample :=
  let noonLat := pc.GetNullableProperty "(Noon) Latitude"
  let noonLon := pc.GetNullableProperty "(Noon) Longitude"
  let pos := pc.Position
  match noonLat, noonLon, pos with
  | some noonLatValue, some noonLonValue, some p =>
    let latitude :=
      if noonLatValue < 0 ∧ p.Latitude > 0 then p.Latitude * -1 else p.Latitude
    let longitude :=
      if noonLonValue < 0 ∧ p.Longitude > 0 then p.Longitude * -1 else p.Longitude
    pc.SetPosition (some latitude) (some longitude)
  | _, _, _ => pc

/-- The body of the loop of `OverrideChevronGeneratorPower` for the index
`i`; `kiloWatts` is `units.KiloWatts.String()`, which is not in the source. -/
def OverrideChevronGeneratorPower.body (kiloWatts : String) (i : Nat) (pc : Sample) : Sample :=
  match pc.GetNullableProperty ("M/G " ++ toString i ++ " Power") with
  | some v => pc.SetPropertyWithUnit ("Generator " ++ toString i ++ " Power") v kiloWatts
  | none => pc

/-- The loop `for i := ...; i < 5; i++` of `OverrideChevronGeneratorPower`
from the index `i` on. -/
def OverrideChevronGeneratorPower.loop (kiloWatts : String) (i : Nat) (pc : Sample) : Sample :=
  if i < 5 then
    OverrideChevronGeneratorPower.loop kiloWatts (i + 1)
      (OverrideChevronGeneratorPower.body kiloWatts i pc)
  else pc
termination_by 5 - i

/-- Function `OverrideChevronGeneratorPower`: the loop from `i := 1`. -/
def OverrideChevronGeneratorPower (kiloWatts : String) (pc : Sample) : Sample :=
  OverrideChevronGeneratorPower.loop kiloWatts 1 pc

/-- Function `RemoveBadGPS`. -/
def RemoveBadGPS (pc : Sample) : Sample :=
  pc.SetPosition none none

/-- The `CalcFunc` of the first rule for issue NAUT-1860 (`funcs.go`, lines
118-124). `copernicusModeledSTW` never panics, so its error branch keeps the
sample. -/
def calcFuncSensorSTW (L : Labels) (cos : Rat → Rat) : Sample → Sample := fun pc =>
  let stw := pc.GetProperty L.SpeedThroughWater
  let pc1 := stw.2.SetProperty L.SensorSTW stw.1
  match copernicusModeledSTW L cos pc1 with
  | Except.ok (some modeledSTW, pc2) => pc2.SetProperty L.ModeledSTW modeledSTW
  | Except.ok (none, pc2) => pc2
  | Except.error _ => pc1

/-- The `CalcFunc` of the second rule for issue NAUT-1860 (`funcs.go`, lines
133-135). -/
def calcFuncModeledSTW (L : Labels) : Sample → Sample := fun pc =>
  let modeled := pc.GetProperty L.ModeledSTW
  modeled.2.SetProperty L.SpeedThroughWater modeled.1

/-! ## Concrete inputs of the estimator and the primitives -/

/-- Stand-in names for the label constants. -/
def labelsA : Labels :=
  { Heading := "Heading", ShaftSpeed := "Shaft Speed", DraftAft := "Draft Aft", Trim := "Trim",
    WS_TrueWindSpeed := "WS True Wind Speed", WS_TrueWindDir := "WS True Wind Dir",
    WS_SeaCurSpeed := "WS Sea Cur Speed", WS_SeaCurDir := "WS Sea Cur Dir",
    WS_SigWaveHeight := "WS Sig Wave Height",
    SpeedThroughWater := "Speed Through Water", SensorSTW := "Sensor STW",
    ModeledSTW := "Modeled STW" }

/-- A rational stand-in for the cosine with the value 1 at 0. -/
def cosA : Rat → Rat := fun x => 1 - x * x / 2

/-- The sample of the estimator example: wind speed 10 and every other
required input 0. -/
def sampleWind : Sample :=
  { ship := ⟨1⟩, time := ⟨150⟩,
    props := fun l => if l = "WS True Wind Speed" then some 10
      else if l ∈ requiredInputs labelsA then some 0 else none,
    units := fun _ => none,
    position := none,
    err := false }

/-- The sample of the estimator example without its trim. -/
def sampleNoTrim : Sample :=
  { sampleWind with props := fun l => if l = "Trim" then none else sampleWind.props l }

/-- A stand-in for `labels.Noon`. -/
def noonA : String → String := fun l => "(Noon) " ++ l

/-- A sample with a noon property next to the shaft speed. -/
def sampleNoon : Sample :=
  { sampleA with props := fun l => if l = "(Noon) Latitude" then some (-12.5)
      else sampleA.props l }

/-- A sample with a shaft speed of 0.0005 and a shaft power of 0.01. -/
def sampleNoise : Sample :=
  { sampleA with props := fun l => if l = "Shaft Speed" then some 0.0005
      else if l = "Shaft Power" then some 0.01 else none }

/-- The rule `ruleA` without start: the window is everything before 200. -/
def ruleNoStart : CleanupFunc := { ruleA with Start := Time.zero }

/-- The rule `ruleB` without start: the window is everything before `now`. -/
def ruleUnbounded : CleanupFunc := { ruleB with Start := Time.zero }

/-- A sample with a northern position whose noon report is southern. -/
def sampleSouth : Sample :=
  { sampleA with props := fun l => if l = "(Noon) Latitude" then some (-12.4)
      else if l = "(Noon) Longitude" then some (-70.1) else none }

/-- A sample with the power of the second motor generator and an earlier
value of the third generator. -/
def sampleGenerators : Sample :=
  { sampleA with props := fun l => if l = "M/G 2 Power" then some 450
      else if l = "Generator 3 Power" then some 7 else none }

/-- A sample of ship 1 on 2019-01-01 with the inputs of the estimator, a speed
through water of 12 and an earlier modeled speed of 11. -/
def sampleStw : Sample :=
  { sampleWind with
    time := parseTime 2019 1 1 0 0 0
    props := fun l => if l = "Speed Through Water" then some 12
      else if l = "Modeled STW" then some 11 else sampleWind.props l }

/-- The sample `sampleStw` without its speed through water. -/
def sampleNoStw : Sample :=
  { sampleStw with props := fun l => if l = "Speed Through Water" then none
      else sampleStw.props l }

/-! ## The shipped catalog -/

/-- The ship constants of package `calc` the catalog names; their values are
not in the source. -/
structure Ships where
  EagleJay : Int
  EpsMountHermon : Int
  EpsSolomonSea : Int
  EpsPacificBeryl : Int
  Jacaranda : Int
  HunterIdun : Int
  HunterFrigg : Int
  HunterFreya : Int
  DbcSincerePisces : Int
  HunterAtla : Int
  HunterDisen : Int
  HunterLaga : Int
  HunterSaga : Int
  PacificBlue : Int
  PacificJade : Int
  EpsQuebec : Int
  BulkFreedom : Int
  EpsPacificDiamond : Int
  VectisProgress : Int
  EpsIndianSolidarity : Int
  EpsMountBolivar : Int
  PacificGold : Int
  NordicOrion : Int
  NordicOlympic : Int
  BulkDestiny : Int
  PdSana : Int

/-- What the catalog takes from other packages: the ship constants, the label
constants, the cosine behind `nmath.ScalarProjection`, `labels.Noon`,
`units.KiloWatts.String()` and, by the position of the rule in the catalog
(from 0), the transforms that call functions of package `calc` or methods
of the sample interface that are not modelled here. -/
structure Externals where
  ships : Ships
  labels : Labels
  cos : Rat → Rat
  Noon : String → String
  KiloWatts : String
  calcFuncs : Nat → Sample → Sample

/-- The package variable `cleanupFuncs` of `funcs.go`: its 116 rules in the
order of the source, each with the line of its opening brace. -/
def cleanupFuncs (X : Externals) : List CleanupFunc :=
  [
    -- rule 0, line 16
    { Comment := "Filter period of weird shaft power / shaft speed NAUT-1439",
      Issue := "NAUT-1439",
      ShipID := X.ships.EagleJay,
      Start := parseTime 2017 9 26 21 0 0,
      End := parseTime 2017 10 5 1 0 0,
      Stage := PreVesselAnatomyStage,
      CalcFunc := some (X.calcFuncs 0) : CleanupFunc },
    -- rule 1, line 25
    { Comment := "Remove large region of erroneous values NAUT-1434",
      Issue := "NAUT-1434",
      ShipID := 7,
      Start := parseTime 2018 9 10 1 0 0,
      End := parseTime 2018 10 31 1 0 0,
      Stage := PreVesselAnatomyStage,
      CalcFunc := some (X.calcFuncs 1) : CleanupFunc },
    -- rule 2, line 34
    { Comment := "Scale elevated shaft power figures NAUT-1440",
      Issue := "NAUT-1440",
      ShipID := 8,
      Start := parseTime 2017 12 9 8 0 0,
      End := parseTime 2018 1 24 23 0 0,
      Stage := PreVesselAnatomyStage,
      CalcFunc := some (X.calcFuncs 2) : CleanupFunc },
    -- rule 3, line 45
    { Comment := "Large region of extremely elevated STW",
      Issue := "NAUT-1523",
      ShipID := 16,
      Start := parseTime 2016 12 21 12 0 0,
      End := parseTime 2017 1 1 6 0 0,
      Stage := PreVesselAnatomyStage,
      CalcFunc := some (X.calcFuncs 3) : CleanupFunc },
    -- rule 4, line 54
    { Issue := "NAUT-2022",
      ShipID := 72,
      Start := parseTime 2018 10 11 0 0 0,
      End := parseTime 2018 11 8 0 0 0,
      Unconditional := true,
      Stage := PreVesselAnatomyStage,
      CalcFunc := some (X.calcFuncs 4) : CleanupFunc },
    -- rule 5, line 75
    { Issue := "NAUT-2022",
      ShipID := 72,
      Start := Time.zero,
      End := Time.zero,
      Unconditional := true,
      Stage := PreVesselAnatomyStage,
      CalcFunc := some (X.calcFuncs 5) : CleanupFunc },
    -- rule 6, line 111
    { Issue := "NAUT-1860",
      ShipID := 1,
      Start := Time.zero,
      End := Time.zero,
      Unconditional := true,
      Stage := PostVesselAnatomyStage,
      CalcFunc := some (calcFuncSensorSTW X.labels X.cos) : CleanupFunc },
    -- rule 7, line 126
    { Issue := "NAUT-1860",
      ShipID := 1,
      Start := parseTime 2018 3 1 0 0 0,
      End := Time.zero,
      Unconditional := true,
      Stage := PostVesselAnatomyStage,
      CalcFunc := some (calcFuncModeledSTW X.labels) : CleanupFunc },
    -- rule 8, line 137
    { Issue := "NAUT-2289",
      ShipID := 36,
      Start := parseTime 2019 8 10 0 0 0,
      End := parseTime 2019 8 10 2 0 0,
      Unconditional := true,
      Stage := PreVesselAnatomyStage,
      CalcFunc := some RemoveBadGPS : CleanupFunc },
    -- rule 9, line 146
    { Issue := "NAUT-2472",
      ShipID := 18,
      Start := parseTime 2019 2 6 22 0 0,
      End := parseTime 2019 2 7 3 0 0,
      Unconditional := true,
      Stage := PreVesselAnatomyStage,
      CalcFunc := some RemoveBadGPS : CleanupFunc },
    -- rule 10, line 155
    { Issue := "NAUT-2259",
      ShipID := 45,
      Start := parseTime 2019 7 27 21 0 0,
      End := Time.zero,
      Unconditional := true,
      Stage := PreVesselAnatomyStage,
      CalcFunc := some (X.calcFuncs 10) : CleanupFunc },
    -- rule 11, line 168
    { Comment := "Remove erroneous shaft values before cutoff date",
      Issue := "DPI-723",
      ShipID := X.ships.EpsMountHermon,
      Start := parseTime 2020 1 1 0 0 0,
      End := parseTime 2020 7 2 0 0 0,
      Unconditional := true,
      Stage := PreVesselAnatomyStage,
      CalcFunc := some (X.calcFuncs 11) : CleanupFunc },
    -- rule 12, line 178
    { Comment := "Remove erroneous shaft values before cutoff date",
      Issue := "DPI-723",
      ShipID := X.ships.EpsSolomonSea,
      Start := parseTime 2020 1 1 0 0 0,
      End := parseTime 2020 5 25 0 0 0,
      Unconditional := true,
      Stage := PreVesselAnatomyStage,
      CalcFunc := some (X.calcFuncs 12) : CleanupFunc },
    -- rule 13, line 188
    { Comment := "Remove erroneous latitude/longitude values",
      Issue := "DPI-415",
      ShipID := 555128,
      Start := parseTime 2020 2 29 12 50 0,
      End := parseTime 2020 2 29 13 10 0,
      Unconditional := true,
      Stage := PreVesselAnatomyStage,
      CalcFunc := some RemoveBadGPS : CleanupFunc },
    -- rule 14, line 198
    { Comment := "Remove erroneous latitude/longitude values",
      Issue := "DPI-809",
      ShipID := 59,
      Start := parseTime 2020 8 22 10 50 0,
      End := parseTime 2020 8 22 11 10 0,
      Unconditional := true,
      Stage := PreVesselAnatomyStage,
      CalcFunc := some RemoveBadGPS : CleanupFunc },
    -- rule 15, line 208
    { Comment := "Remove erroneous latitude/longitude values",
      Issue := "DPI-734",
      ShipID := 376230,
      Start := parseTime 2020 6 8 22 0 0,
      End := parseTime 2020 7 14 17 0 0,
      Unconditional := true,
      Stage := PreVesselAnatomyStage,
      CalcFunc := some RemoveBadGPS : CleanupFunc },
    -- rule 16, line 218
    { Comment := "SOG sensor isn't working, so map over it with ObservedSpeed",
      Issue := "DPI-807",
      ShipID := 7,
      Start := parseTime 2020 7 22 14 0 0,
      End := parseTime 2020 9 22 0 0 0,
      Unconditional := true,
      Stage := PostVesselAnatomyStage,
      CalcFunc := some (X.calcFuncs 16) : CleanupFunc },
    -- rule 17, line 233
    { Comment := "Sensor data doesn't provide sign for position, but noons do",
      Issue := "DPI-835, ENG-553",
      ShipID := 616,
      Start := parseTime 2020 1 1 0 0 0,
      End := parseTime 2020 12 20 0 0 0,
      Unconditional := true,
      Stage := PostVesselAnatomyStage,
      CalcFunc := some OverrideLatLonSign : CleanupFunc },
    -- rule 18, line 243
    { Comment := "Sensor data doesn't provide sign for position, but noons do",
      Issue := "DPI-835, DPI-962",
      ShipID := 146207,
      Start := parseTime 2020 1 1 0 0 0,
      End := parseTime 2020 10 20 0 0 0,
      Unconditional := true,
      Stage := PostVesselAnatomyStage,
      CalcFunc := some OverrideLatLonSign : CleanupFunc },
    -- rule 19, line 253
    { Comment := "Generator Power tags were changed",
      Issue := "DPI-922",
      ShipID := 207,
      Start := parseTime 2020 1 1 0 0 0,
      End := parseTime 2020 9 30 6 0 0,
      Unconditional := true,
      Stage := PostVesselAnatomyStage,
      CalcFunc := some (OverrideChevronGeneratorPower X.KiloWatts) : CleanupFunc },
    -- rule 20, line 263
    { Comment := "Generator Power tags were changed",
      Issue := "DPI-922",
      ShipID := 896,
      Start := parseTime 2020 1 1 0 0 0,
      End := parseTime 2020 9 13 16 0 0,
      Unconditional := true,
      Stage := PostVesselAnatomyStage,
      CalcFunc := some (OverrideChevronGeneratorPower X.KiloWatts) : CleanupFunc },
    -- rule 21, line 273
    { Comment := "Generator Power tags were changed",
      Issue := "DPI-922",
      ShipID := 971,
      Start := parseTime 2020 1 1 0 0 0,
      End := parseTime 2020 9 27 0 0 0,
      Unconditional := true,
      Stage := PostVesselAnatomyStage,
      CalcFunc := some (OverrideChevronGeneratorPower X.KiloWatts) : CleanupFunc },
    -- rule 22, line 283
    { Comment := "Position Sign tags not provided yet",
      Issue := "DPI-920",
      ShipID := 207,
      Start := parseTime 2020 1 1 0 0 0,
      End := parseTime 2021 1 1 0 0 0,
      Unconditional := true,
      Stage := PostVesselAnatomyStage,
      CalcFunc := some OverrideLatLonSign : CleanupFunc },
    -- rule 23, line 293
    { Comment := "Position Sign tags not provided yet",
      Issue := "DPI-920",
      ShipID := 896,
      Start := parseTime 2020 1 1 0 0 0,
      End := parseTime 2021 1 1 0 0 0,
      Unconditional := true,
      Stage := PostVesselAnatomyStage,
      CalcFunc := some OverrideLatLonSign : CleanupFunc },
    -- rule 24, line 303
    { Comment := "Position Sign tags not provided yet",
      Issue := "DPI-920",
      ShipID := 971,
      Start := parseTime 2020 1 1 0 0 0,
      End := parseTime 2021 1 1 0 0 0,
      Unconditional := true,
      Stage := PostVesselAnatomyStage,
      CalcFunc := some OverrideLatLonSign : CleanupFunc },
    -- rule 25, line 313
    { Comment := "Correcting sign which is causing interpolation error",
      Issue := "DPI-925",
      ShipID := 971,
      Start := parseTime 2020 10 10 23 0 0,
      End := parseTime 2020 10 11 1 0 0,
      Unconditional := true,
      Stage := PreVesselAnatomyStage,
      CalcFunc := some NegateLatitude : CleanupFunc },
    -- rule 26, line 323
    { Comment := "Correcting sign which is causing interpolation error",
      Issue := "DPI-925",
      ShipID := 119,
      Start := parseTime 2020 10 10 23 0 0,
      End := parseTime 2020 10 11 1 0 0,
      Unconditional := true,
      Stage := PreVesselAnatomyStage,
      CalcFunc := some NegateLatitude : CleanupFunc },
    -- rule 27, line 336
    { Comment := "Correcting sign which is causing interpolation error",
      Issue := "DPI-925",
      ShipID := 207,
      Start := parseTime 2020 9 30 5 0 0,
      End := parseTime 2020 9 30 7 0 0,
      Unconditional := true,
      Stage := PreVesselAnatomyStage,
      CalcFunc := some NegateLatitude : CleanupFunc },
    -- rule 28, line 346
    { Comment := "Correcting sign which is causing interpolation error",
      Issue := "DPI-925",
      ShipID := 207,
      Start := parseTime 2020 10 8 11 0 0,
      End := parseTime 2020 10 9 4 0 0,
      Unconditional := true,
      Stage := PreVesselAnatomyStage,
      CalcFunc := some NegateLatitude : CleanupFunc },
    -- rule 29, line 356
    { Comment := "Correcting sign after noon correction above due to transition from N to S in the from Noon to Noon",
      Issue := "DPI-925",
      ShipID := 896,
      Start := parseTime 2020 9 18 5 0 0,
      End := parseTime 2020 9 18 18 0 0,
      Unconditional := true,
      Stage := PostVesselAnatomyStage,
      CalcFunc := some NegateLatitude : CleanupFunc },
    -- rule 30, line 367
    { Comment := "Correcting sign after noon correction above due to transition from N to S in the from Noon to Noon",
      Issue := "DPI-925",
      ShipID := 896,
      Start := parseTime 2020 10 2 4 0 0,
      End := parseTime 2020 10 2 20 0 0,
      Unconditional := true,
      Stage := PostVesselAnatomyStage,
      CalcFunc := some NegateLatitude : CleanupFunc },
    -- rule 31, line 378
    { Comment := "Generator Fuel Flow is in MT/hr prior to cutoff",
      Issue := "ENG-397",
      ShipID := X.ships.EpsPacificBeryl,
      Start := parseTime 2020 1 1 0 0 0,
      End := parseTime 2020 10 8 0 0 0,
      Unconditional := true,
      Stage := PreVesselAnatomyStage,
      CalcFunc := some (X.calcFuncs 31) : CleanupFunc },
    -- rule 32, line 388
    { Comment := "Jacaranda didn't always have a Fuel Outlet tag. So we 'fake' it to ensure fuel calculations occur",
      Issue := "ENG-377",
      ShipID := X.ships.Jacaranda,
      Start := parseTime 2020 7 1 0 0 0,
      End := parseTime 2020 11 5 0 0 0,
      Unconditional := true,
      Stage := PreVesselAnatomyStage,
      CalcFunc := some (X.calcFuncs 32) : CleanupFunc },
    -- rule 33, line 398
    { Comment := "Remove ESM erroneous fuel flow data before valid data is received",
      Issue := "DPI-938",
      ShipID := 263,
      Start := parseTime 2020 8 25 0 0 0,
      End := parseTime 2020 10 21 0 0 0,
      Unconditional := true,
      Stage := PreVesselAnatomyStage,
      CalcFunc := some (X.calcFuncs 33) : CleanupFunc },
    -- rule 34, line 408
    { Comment := "Remove ESM erroneous fuel flow data before valid data is received",
      Issue := "DPI-938",
      ShipID := 196,
      Start := parseTime 2020 8 25 0 0 0,
      End := parseTime 2020 10 27 0 0 0,
      Unconditional := true,
      Stage := PreVesselAnatomyStage,
      CalcFunc := some (X.calcFuncs 34) : CleanupFunc },
    -- rule 35, line 418
    { Comment := "Remove ESM erroneous fuel flow data before valid data is received",
      Issue := "DPI-938",
      ShipID := 316,
      Start := parseTime 2020 8 25 0 0 0,
      End := parseTime 2020 10 30 0 0 0,
      Unconditional := true,
      Stage := PreVesselAnatomyStage,
      CalcFunc := some (X.calcFuncs 35) : CleanupFunc },
    -- rule 36, line 428
    { Comment := "Remove ESM erroneous fuel flow data before valid data is received",
      Issue := "DPI-938",
      ShipID := 167,
      Start := parseTime 2020 8 25 0 0 0,
      End := parseTime 2020 11 3 0 0 0,
      Unconditional := true,
      Stage := PreVesselAnatomyStage,
      CalcFunc := some (X.calcFuncs 36) : CleanupFunc },
    -- rule 37, line 438
    { Comment := "CMA CGM Tenere - Remove erroneous draft values",
      Issue := "DPI-960",
      ShipID := 181,
      Start := parseTime 2020 9 17 7 0 0,
      End := parseTime 2020 9 18 1 0 0,
      Unconditional := true,
      Stage := PreVesselAnatomyStage,
      CalcFunc := some (X.calcFuncs 37) : CleanupFunc },
    -- rule 38, line 448
    { Comment := "Remove Hunter position data when invalid",
      Issue := "ENG-383",
      ShipID := X.ships.HunterIdun,
      Start := parseTime 2020 8 23 0 0 0,
      End := parseTime 2020 10 22 0 0 0,
      Unconditional := true,
      Stage := PreVesselAnatomyStage,
      CalcFunc := some RemoveBadGPS : CleanupFunc },
    -- rule 39, line 458
    { Comment := "Remove Hunter position data when invalid",
      Issue := "ENG-383",
      ShipID := X.ships.HunterFrigg,
      Start := parseTime 2020 8 23 0 0 0,
      End := parseTime 2020 10 22 0 0 0,
      Unconditional := true,
      Stage := PreVesselAnatomyStage,
      CalcFunc := some RemoveBadGPS : CleanupFunc },
    -- rule 40, line 468
    { Comment := "Remove Hunter position data when invalid",
      Issue := "ENG-383",
      ShipID := X.ships.HunterFreya,
      Start := parseTime 2020 8 23 0 0 0,
      End := parseTime 2020 10 22 0 0 0,
      Unconditional := true,
      Stage := PreVesselAnatomyStage,
      CalcFunc := some RemoveBadGPS : CleanupFunc },
    -- rule 41, line 478
    { Comment := "Remove Hunter position data when invalid",
      Issue := "ENG-383",
      ShipID := X.ships.HunterFreya,
      Start := parseTime 2020 12 10 0 0 0,
      End := parseTime 2020 12 17 17 0 0,
      Unconditional := true,
      Stage := PreVesselAnatomyStage,
      CalcFunc := some (X.calcFuncs 41) : CleanupFunc },
    -- rule 42, line 488
    { Comment := "Remove Hunter position data when invalid",
      Issue := "ENG-383",
      ShipID := X.ships.HunterFreya,
      Start := parseTime 2020 11 30 4 0 0,
      End := parseTime 2020 12 9 11 0 0,
      Unconditional := true,
      Stage := PreVesselAnatomyStage,
      CalcFunc := some RemoveBadGPS : CleanupFunc },
    -- rule 43, line 498
    { Comment := "Chevron Asia Energy - Remove erroneous positions",
      Issue := "ENG-449",
      ShipID := 207,
      Start := parseTime 2020 10 15 0 0 0,
      End := parseTime 2020 11 12 2 0 0,
      Unconditional := true,
      Stage := PreVesselAnatomyStage,
      CalcFunc := some RemoveBadGPS : CleanupFunc },
    -- rule 44, line 508
    { Comment := "Chevron Asia Vision - Remove erroneous positions",
      Issue := "ENG-449",
      ShipID := 896,
      Start := parseTime 2020 10 23 0 0 0,
      End := parseTime 2020 11 8 0 0 0,
      Unconditional := true,
      Stage := PreVesselAnatomyStage,
      CalcFunc := some RemoveBadGPS : CleanupFunc },
    -- rule 45, line 518
    { Comment := "Chevron Asia Vision - Remove erroneous positions",
      Issue := "ENG-449",
      ShipID := 896,
      Start := parseTime 2020 11 11 4 0 0,
      End := parseTime 2020 11 15 2 0 0,
      Unconditional := true,
      Stage := PreVesselAnatomyStage,
      CalcFunc := some RemoveBadGPS : CleanupFunc },
    -- rule 46, line 528
    { Comment := "Diamond Bulk Sincere Pisces - Alias alternative mode switch tags",
      Issue := "ENG-476",
      ShipID := X.ships.DbcSincerePisces,
      Start := Time.zero,
      End := parseTime 2020 11 25 0 0 0,
      Unconditional := true,
      Stage := PreVesselAnatomyStage,
      CalcFunc := some fun pc =>
        let pc := pc.SetNullableProperty "Main Engine on ULSFO"
          (pc.GetNullableProperty "Main Engine using ULSFO")
        let pc := pc.SetNullableProperty "Main Engine on MGO"
          (pc.GetNullableProperty "Main Engine using MGO")
        let pc := pc.SetNullableProperty "Main Engine on MDO"
          (pc.GetNullableProperty "Main Engine using MDO")
        let pc := pc.SetNullableProperty "Main Engine on LSMGO"
          (pc.GetNullableProperty "Main Engine using LSMGO")
        let pc := pc.SetNullableProperty "Main Engine on LSHFO"
          (pc.GetNullableProperty "Main Engine using LSHFO")
        pc.SetNullableProperty "Main Engine on HFO"
          (pc.GetNullableProperty "Main Engine using HFO") : CleanupFunc },
    -- rule 47, line 546
    { Comment := "Hunter fallback to voyage location gps must run before weather service",
      Issue := "ENG-477",
      ShipID := X.ships.HunterAtla,
      Start := Time.zero,
      End := Time.zero,
      Unconditional := true,
      Stage := PreVesselAnatomyStage,
      CalcFunc := some (X.calcFuncs 47) : CleanupFunc },
    -- rule 48, line 556
    { Comment := "Hunter fallback to voyage location gps must run before weather service",
      Issue := "ENG-477",
      ShipID := X.ships.HunterDisen,
      Start := Time.zero,
      End := Time.zero,
      Unconditional := true,
      Stage := PreVesselAnatomyStage,
      CalcFunc := some (X.calcFuncs 48) : CleanupFunc },
    -- rule 49, line 566
    { Comment := "Hunter fallback to voyage location gps must run before weather service",
      Issue := "ENG-477",
      ShipID := X.ships.HunterFreya,
      Start := Time.zero,
      End := parseTime 2020 10 27 11 0 0,
      Unconditional := true,
      Stage := PreVesselAnatomyStage,
      CalcFunc := some (X.calcFuncs 49) : CleanupFunc },
    -- rule 50, line 576
    { Comment := "Hunter fallback to voyage location gps must run before weather service",
      Issue := "ENG-477",
      ShipID := X.ships.HunterFrigg,
      Start := Time.zero,
      End := Time.zero,
      Unconditional := true,
      Stage := PreVesselAnatomyStage,
      CalcFunc := some (X.calcFuncs 50) : CleanupFunc },
    -- rule 51, line 586
    { Comment := "Hunter fallback to voyage location gps must run before weather service",
      Issue := "ENG-477",
      ShipID := X.ships.HunterIdun,
      Start := Time.zero,
      End := Time.zero,
      Unconditional := true,
      Stage := PreVesselAnatomyStage,
      CalcFunc := some (X.calcFuncs 51) : CleanupFunc },
    -- rule 52, line 596
    { Comment := "Hunter fallback to voyage location gps must run before weather service",
      Issue := "ENG-477",
      ShipID := X.ships.HunterLaga,
      Start := Time.zero,
      End := Time.zero,
      Unconditional := true,
      Stage := PreVesselAnatomyStage,
      CalcFunc := some (X.calcFuncs 52) : CleanupFunc },
    -- rule 53, line 606
    { Comment := "Hunter fallback to voyage location gps must run before weather service",
      Issue := "ENG-477",
      ShipID := X.ships.HunterSaga,
      Start := Time.zero,
      End := Time.zero,
      Unconditional := true,
      Stage := PreVesselAnatomyStage,
      CalcFunc := some (X.calcFuncs 53) : CleanupFunc },
    -- rule 54, line 616
    { Comment := "Bad Solomon Sea data point",
      Issue := "ENG-461",
      ShipID := X.ships.EpsSolomonSea,
      Start := parseTime 2020 10 29 0 0 0,
      End := parseTime 2020 11 2 0 0 0,
      Unconditional := true,
      Stage := PostVesselAnatomyStage,
      CalcFunc := some (X.calcFuncs 54) : CleanupFunc },
    -- rule 55, line 637
    { Comment := "primary Lat/Lon is not reliable",
      Issue := "ENG-614",
      ShipID := X.ships.PacificBlue,
      Start := Time.zero,
      End := Time.zero,
      Unconditional := true,
      Stage := PreVesselAnatomyStage,
      CalcFunc := some (X.calcFuncs 55) : CleanupFunc },
    -- rule 56, line 647
    { Comment := "primary Lat/Lon is not reliable",
      Issue := "ENG-614",
      ShipID := X.ships.PacificJade,
      Start := Time.zero,
      End := Time.zero,
      Unconditional := true,
      Stage := PreVesselAnatomyStage,
      CalcFunc := some (X.calcFuncs 56) : CleanupFunc },
    -- rule 57, line 657
    { Comment := "resampling error for Voyage Location",
      Issue := "ENG-756",
      ShipID := X.ships.PacificBlue,
      Start := parseTime 2021 1 25 20 0 0,
      End := parseTime 2021 1 25 22 0 0,
      Unconditional := true,
      Stage := PreVesselAnatomyStage,
      CalcFunc := some (X.calcFuncs 57) : CleanupFunc },
    -- rule 58, line 672
    { Comment := "nulling out lat/lon data from reports prior to sensor data",
      Issue := "ENG-615",
      ShipID := X.ships.EpsQuebec,
      Start := Time.zero,
      End := parseTime 2021 1 15 2 0 0,
      Unconditional := true,
      Stage := PostVesselAnatomyStage,
      CalcFunc := some RemoveBadGPS : CleanupFunc },
    -- rule 59, line 682
    { Comment := "interpolate gen fuel cons for erroneous data point",
      Issue := "ENG-576",
      ShipID := 389,
      Start := parseTime 2021 1 3 4 0 0,
      End := parseTime 2021 1 3 6 0 0,
      Unconditional := true,
      Stage := PreVesselAnatomyStage,
      CalcFunc := some (X.calcFuncs 59) : CleanupFunc },
    -- rule 60, line 700
    { Comment := "alias SOG with Observed Speed for VO",
      Issue := "ENG-634",
      ShipID := X.ships.HunterFreya,
      Start := parseTime 2020 10 23 17 0 0,
      End := Time.zero,
      Unconditional := true,
      Stage := PostVesselAnatomyStage,
      CalcFunc := some (X.calcFuncs 60) : CleanupFunc },
    -- rule 61, line 710
    { Comment := "Fix Tenere STW tags",
      Issue := "ENG-620",
      ShipID := 181,
      Start := Time.zero,
      End := parseTime 2020 12 19 0 0 0,
      Unconditional := true,
      Stage := PreVesselAnatomyStage,
      CalcFunc := some (X.calcFuncs 61) : CleanupFunc },
    -- rule 62, line 720
    { Comment := "fallback on AIS",
      Issue := "ENG-265",
      ShipID := X.ships.EagleJay,
      Start := Time.zero,
      End := Time.zero,
      Unconditional := true,
      Stage := PreVesselAnatomyStage,
      CalcFunc := some (X.calcFuncs 62) : CleanupFunc },
    -- rule 63, line 730
    { Comment := "fallback on AIS",
      Issue := "ENG-676",
      ShipID := X.ships.BulkFreedom,
      Start := Time.zero,
      End := Time.zero,
      Unconditional := true,
      Stage := PreVesselAnatomyStage,
      CalcFunc := some (X.calcFuncs 63) : CleanupFunc },
    -- rule 64, line 740
    { Comment := "Fix Diamondway Erroneous Consumption",
      Issue := "ENG-651",
      ShipID := 447,
      Start := parseTime 2021 2 18 4 0 0,
      End := parseTime 2021 2 24 15 0 0,
      Unconditional := true,
      Stage := PostVesselAnatomyStage,
      CalcFunc := some (X.calcFuncs 64) : CleanupFunc },
    -- rule 65, line 754
    { Comment := "null out Pacific Jade data prior to March 18th",
      Issue := "ENG-756",
      ShipID := X.ships.PacificJade,
      Start := Time.zero,
      End := parseTime 2021 3 18 0 0 0,
      Unconditional := true,
      Stage := PostVesselAnatomyStage,
      CleanFunc := some fun pc => RemoveBadGPS (NullAllFeatures pc) : CleanupFunc },
    -- rule 66, line 767
    { Comment := "null out Pacific Diamond data prior to March 20th",
      Issue := "ENG-756",
      ShipID := X.ships.EpsPacificDiamond,
      Start := Time.zero,
      End := parseTime 2021 3 20 0 0 0,
      Unconditional := true,
      Stage := PostVesselAnatomyStage,
      CleanFunc := some (NullNoonFeatures X.Noon) : CleanupFunc },
    -- rule 67, line 777
    { Comment := "null out Vectis Progress Shaft Power",
      Issue := "ENG-729",
      ShipID := X.ships.VectisProgress,
      Start := Time.zero,
      End := parseTime 2021 3 1 0 0 0,
      Unconditional := true,
      Stage := PostVesselAnatomyStage,
      CalcFunc := some (X.calcFuncs 67) : CleanupFunc },
    -- rule 68, line 787
    { Comment := "Clear out fuel consumption before Jan 4th, 2021",
      Issue := "ENG-769",
      ShipID := X.ships.EpsIndianSolidarity,
      Start := Time.zero,
      End := parseTime 2021 1 4 0 0 0,
      Unconditional := true,
      Stage := PreVesselAnatomyStage,
      CalcFunc := some (X.calcFuncs 68) : CleanupFunc },
    -- rule 69, line 797
    { Comment := "Remove Pacific Beryl noisy shaft power",
      Issue := "ENG-792",
      ShipID := X.ships.EpsPacificBeryl,
      Start := parseTime 2021 1 12 0 0 0,
      End := parseTime 2021 3 30 0 0 0,
      Unconditional := true,
      Stage := PreVesselAnatomyStage,
      CalcFunc := some (X.calcFuncs 69) : CleanupFunc },
    -- rule 70, line 807
    { Comment := "Remove FOC data for chevron asia energy",
      Issue := "ENG-712",
      ShipID := 207,
      Start := Time.zero,
      End := parseTime 2021 1 28 0 0 0,
      Unconditional := true,
      Stage := PostVesselAnatomyStage,
      CalcFunc := some (X.calcFuncs 70) : CleanupFunc },
    -- rule 71, line 817
    { Comment := "Remove FOC data for chevron asia excellence",
      Issue := "ENG-712",
      ShipID := 971,
      Start := Time.zero,
      End := parseTime 2021 1 12 0 0 0,
      Unconditional := true,
      Stage := PostVesselAnatomyStage,
      CalcFunc := some (X.calcFuncs 71) : CleanupFunc },
    -- rule 72, line 827
    { Comment := "Remove all data for chevron asia vision",
      Issue := "ENG-712",
      ShipID := 896,
      Start := Time.zero,
      End := parseTime 2021 2 8 0 0 0,
      Unconditional := true,
      Stage := PostVesselAnatomyStage,
      CalcFunc := some (X.calcFuncs 72) : CleanupFunc },
    -- rule 73, line 837
    { Comment := "Remove bad STW sensor data for EPS Yukon",
      Issue := "DMT-686",
      ShipID := 369116,
      Start := parseTime 2021 1 4 0 0 0,
      End := parseTime 2021 3 22 0 0 0,
      Unconditional := true,
      Stage := PostVesselAnatomyStage,
      CalcFunc := some (X.calcFuncs 73) : CleanupFunc },
    -- rule 74, line 847
    { Comment := "Remove Pacific Diamond bad data for rollout",
      Issue := "DMT-649",
      ShipID := X.ships.EpsPacificDiamond,
      Start := Time.zero,
      End := parseTime 2021 3 20 0 0 0,
      Unconditional := true,
      Stage := PreVesselAnatomyStage,
      CleanFunc := some fun pc => RemoveBadGPS (NullAllFeatures pc) : CleanupFunc },
    -- rule 75, line 860
    { Comment := "Remove stw data for pacific gold",
      Issue := "DMT-712",
      ShipID := 616,
      Start := parseTime 2021 3 21 0 0 0,
      End := parseTime 2021 4 16 0 0 0,
      Unconditional := true,
      Stage := PostVesselAnatomyStage,
      CalcFunc := some (X.calcFuncs 75) : CleanupFunc },
    -- rule 76, line 870
    { Comment := "Remove stw data for pacific gold",
      Issue := "DMT-712",
      ShipID := 616,
      Start := parseTime 2021 1 26 0 0 0,
      End := parseTime 2021 3 3 0 0 0,
      Unconditional := true,
      Stage := PostVesselAnatomyStage,
      CalcFunc := some (X.calcFuncs 76) : CleanupFunc },
    -- rule 77, line 880
    { Comment := "Remove bad shaft speed and power for Diamondway",
      Issue := "DMT-685",
      ShipID := 447,
      Start := parseTime 2021 1 13 0 0 0,
      End := parseTime 2021 2 8 0 0 0,
      Unconditional := true,
      Stage := PostVesselAnatomyStage,
      CalcFunc := some (X.calcFuncs 77) : CleanupFunc },
    -- rule 78, line 890
    { Comment := "Remove erroneous GPS for Sunray",
      Issue := "DPI-1287",
      ShipID := 283,
      Start := parseTime 2021 3 4 22 0 0,
      End := parseTime 2021 3 5 15 0 0,
      Unconditional := true,
      Stage := PreVesselAnatomyStage,
      CalcFunc := some RemoveBadGPS : CleanupFunc },
    -- rule 79, line 900
    { Comment := "Remove erroneous GPS for Sunray",
      Issue := "DPI-1287",
      ShipID := 283,
      Start := parseTime 2020 7 22 20 0 0,
      End := parseTime 2020 7 22 23 0 0,
      Unconditional := true,
      Stage := PreVesselAnatomyStage,
      CalcFunc := some RemoveBadGPS : CleanupFunc },
    -- rule 80, line 910
    { Comment := "Remove erroneous GPS for Sunray",
      Issue := "DPI-1287",
      ShipID := 283,
      Start := parseTime 2020 7 12 7 0 0,
      End := parseTime 2020 7 12 9 0 0,
      Unconditional := true,
      Stage := PreVesselAnatomyStage,
      CalcFunc := some RemoveBadGPS : CleanupFunc },
    -- rule 81, line 920
    { Comment := "Remove erroneous GPS for Sunray",
      Issue := "DPI-1287",
      ShipID := 283,
      Start := parseTime 2020 6 26 0 0 0,
      End := parseTime 2020 6 26 2 0 0,
      Unconditional := true,
      Stage := PreVesselAnatomyStage,
      CalcFunc := some RemoveBadGPS : CleanupFunc },
    -- rule 82, line 930
    { Comment := "Remove erroneous GPS for Sunray",
      Issue := "DPI-1287",
      ShipID := 283,
      Start := parseTime 2020 6 25 20 0 0,
      End := parseTime 2020 6 25 22 0 0,
      Unconditional := true,
      Stage := PreVesselAnatomyStage,
      CalcFunc := some RemoveBadGPS : CleanupFunc },
    -- rule 83, line 940
    { Comment := "Remove erroneous GPS for Sunray",
      Issue := "DPI-1287",
      ShipID := 283,
      Start := parseTime 2019 11 23 0 0 0,
      End := parseTime 2019 11 24 0 0 0,
      Unconditional := true,
      Stage := PreVesselAnatomyStage,
      CalcFunc := some RemoveBadGPS : CleanupFunc },
    -- rule 84, line 950
    { Comment := "Remove erroneous GPS for Sunray",
      Issue := "DPI-1287",
      ShipID := 283,
      Start := parseTime 2019 11 17 17 0 0,
      End := parseTime 2019 11 17 19 0 0,
      Unconditional := true,
      Stage := PreVesselAnatomyStage,
      CalcFunc := some RemoveBadGPS : CleanupFunc },
    -- rule 85, line 960
    { Comment := "Remove Shaft Power for EPS Irongate",
      Issue := "DMT-684",
      ShipID := 1877,
      Start := Time.zero,
      End := parseTime 2021 3 6 0 0 0,
      Unconditional := true,
      Stage := PostVesselAnatomyStage,
      CalcFunc := some (X.calcFuncs 85) : CleanupFunc },
    -- rule 86, line 970
    { Comment := "Remove bad data for EPS CMA CGM PANAMA",
      Issue := "DMT-743",
      ShipID := 110,
      Start := parseTime 2021 4 4 0 0 0,
      End := parseTime 2021 4 28 0 0 0,
      Unconditional := true,
      Stage := PostVesselAnatomyStage,
      CleanFunc := some fun pc => RemoveBadGPS (NullAllFeatures pc) : CleanupFunc },
    -- rule 87, line 983
    { Comment := "Round extremely small shaft values to zero for EPS Mount Bolivar",
      Issue := "ENG-850",
      ShipID := X.ships.EpsMountBolivar,
      Start := Time.zero,
      End := Time.zero,
      Unconditional := true,
      Stage := PreVesselAnatomyStage,
      CalcFunc := some (X.calcFuncs 87) : CleanupFunc },
    -- rule 88, line 998
    { Comment := "EPS-Pacific-Cobalt-Remove-STW-sensor-data",
      Issue := "DMT-783",
      ShipID := 146207,
      Start := parseTime 2020 11 21 22 0 0,
      End := parseTime 2021 1 15 7 0 0,
      Unconditional := true,
      Stage := PreVesselAnatomyStage,
      CalcFunc := some (X.calcFuncs 88) : CleanupFunc },
    -- rule 89, line 1008
    { Comment := "EPS-Pacific-Cobalt-Remove-STW-sensor-data",
      Issue := "DMT-783",
      ShipID := 146207,
      Start := parseTime 2021 1 29 8 0 0,
      End := parseTime 2021 2 25 8 0 0,
      Unconditional := true,
      Stage := PreVesselAnatomyStage,
      CalcFunc := some (X.calcFuncs 89) : CleanupFunc },
    -- rule 90, line 1018
    { Comment := "Clean fuel data for Tyrrhenian Sea",
      Issue := "DMT-827",
      ShipID := 89,
      Start := Time.zero,
      End := parseTime 2021 5 23 0 0 0,
      Unconditional := true,
      Stage := PreVesselAnatomyStage,
      CalcFunc := some (X.calcFuncs 90) : CleanupFunc },
    -- rule 91, line 1028
    { Comment := "Hunter Freya - Use Deprecated Fuel Tag Prior to New Tag Addition",
      Issue := "ENG-1007",
      ShipID := X.ships.HunterFreya,
      Start := Time.zero,
      End := parseTime 2021 5 27 0 0 0,
      Unconditional := true,
      Stage := PreVesselAnatomyStage,
      CalcFunc := some fun pc =>
        pc.SetNullableProperty "Engines_Main_FO_Flow"
          (pc.GetNullableProperty "Engines_Main_1_Fuel_Oil_System_FO_Inlet_Flow_Mass") : CleanupFunc },
    -- rule 92, line 1041
    { Comment := "Hunter Frigg - Use Deprecated Fuel Tag Prior to New Tag Addition",
      Issue := "ENG-1007",
      ShipID := X.ships.HunterFrigg,
      Start := Time.zero,
      End := parseTime 2021 5 27 0 0 0,
      Unconditional := true,
      Stage := PreVesselAnatomyStage,
      CalcFunc := some fun pc =>
        pc.SetNullableProperty "Engines_Main_FO_Flow"
          (pc.GetNullableProperty "Engines_Main_1_Fuel_Oil_System_FO_Inlet_Flow_Mass") : CleanupFunc },
    -- rule 93, line 1054
    { Comment := "EPS - Pacific Gold weird spike",
      Issue := "ENG-924",
      ShipID := X.ships.PacificGold,
      Start := parseTime 2021 7 6 6 0 0,
      End := parseTime 2021 7 6 21 0 0,
      Unconditional := true,
      Stage := PreVesselAnatomyStage,
      CalcFunc := some RemoveBadGPS : CleanupFunc },
    -- rule 94, line 1064
    { Comment := "EPS - Pacific Gold Weird GPS Spike 2",
      Issue := "DPI-1678",
      ShipID := X.ships.PacificGold,
      Start := parseTime 2022 5 3 15 0 0,
      End := parseTime 2022 5 4 5 0 0,
      Unconditional := true,
      Stage := PreVesselAnatomyStage,
      CalcFunc := some RemoveBadGPS : CleanupFunc },
    -- rule 95, line 1074
    { Comment := "Clean fuel data for Nordic Orion",
      Issue := "ENG-1105",
      ShipID := X.ships.NordicOrion,
      Start := parseTime 2021 7 7 6 0 0,
      End := parseTime 2021 9 8 0 0 0,
      Unconditional := true,
      Stage := PreVesselAnatomyStage,
      CalcFunc := some (X.calcFuncs 95) : CleanupFunc },
    -- rule 96, line 1084
    { Comment := "Clean fuel data for Nordic Olympic",
      Issue := "ENG-1105",
      ShipID := X.ships.NordicOlympic,
      Start := parseTime 2021 11 4 20 0 0,
      End := parseTime 2021 12 14 0 0 0,
      Unconditional := true,
      Stage := PreVesselAnatomyStage,
      CalcFunc := some (X.calcFuncs 96) : CleanupFunc },
    -- rule 97, line 1094
    { Comment := "Clean Shaft Power data for Bulk Destiny",
      Issue := "ENG-1124",
      ShipID := X.ships.BulkDestiny,
      Start := parseTime 2021 9 7 1 0 0,
      End := parseTime 2022 1 22 0 0 0,
      Unconditional := true,
      Stage := PreVesselAnatomyStage,
      CalcFunc := some (X.calcFuncs 97) : CleanupFunc },
    -- rule 98, line 1104
    { Comment := "Naively Forward Fill MEFC",
      Issue := "VOTR-10",
      ShipID := X.ships.PdSana,
      Start := parseTime 2022 4 20 4 0 0,
      End := Time.zero,
      Unconditional := true,
      Stage := PostVesselAnatomyStage,
      CalcFunc := some (X.calcFuncs 98) : CleanupFunc },
    -- rule 99, line 1118
    { Comment := "Onboard AIS Fallback for BW Brussels",
      Issue := "DPI-1680",
      ShipID := 351,
      Start := Time.zero,
      End := parseTime 2022 5 31 13 0 0,
      Unconditional := true,
      Stage := PreVesselAnatomyStage,
      CalcFunc := some (X.calcFuncs 99) : CleanupFunc },
    -- rule 100, line 1128
    { Comment := "Onboard AIS Fallback for BW Brussels",
      Issue := "DPI-1680",
      ShipID := 351,
      Start := Time.zero,
      End := parseTime 2022 5 31 13 0 0,
      Unconditional := true,
      Stage := PreVesselAnatomyStage,
      CalcFunc := some (X.calcFuncs 100) : CleanupFunc },
    -- rule 101, line 1138
    { Comment := "Spire AIS Fallback for BW Brussels",
      Issue := "DPI-1680",
      ShipID := 351,
      Start := parseTime 2022 5 31 12 0 0,
      End := Time.zero,
      Unconditional := true,
      Stage := PreVesselAnatomyStage,
      CalcFunc := some (X.calcFuncs 101) : CleanupFunc },
    -- rule 102, line 1148
    { Comment := "Removed brussel bad GPS in June 2021",
      Issue := "DPI-1680",
      ShipID := 351,
      Start := parseTime 2021 6 21 23 0 0,
      End := parseTime 2021 6 24 11 0 0,
      Unconditional := true,
      Stage := PostVesselAnatomyStage,
      CalcFunc := some fun pc => pc.SetPosition none none : CleanupFunc },
    -- rule 103, line 1160
    { Comment := "Remove Lake Wanaka shaft power",
      Issue := "ENG-1263",
      ShipID := 612,
      Start := parseTime 2021 11 26 7 0 0,
      End := parseTime 2021 11 27 12 0 0,
      Unconditional := true,
      Stage := PostVesselAnatomyStage,
      CalcFunc := some (X.calcFuncs 103) : CleanupFunc },
    -- rule 104, line 1170
    { Comment := "Remove Lake Wanaka shaft power",
      Issue := "ENG-1263",
      ShipID := 612,
      Start := parseTime 2022 3 6 11 0 0,
      End := parseTime 2022 3 6 22 0 0,
      Unconditional := true,
      Stage := PostVesselAnatomyStage,
      CalcFunc := some (X.calcFuncs 104) : CleanupFunc },
    -- rule 105, line 1180
    { Comment := " Remove Bad Data Points",
      Issue := "ENG-1263",
      ShipID := 612,
      Start := parseTime 2021 9 25 16 0 0,
      End := parseTime 2021 9 26 12 0 0,
      Unconditional := true,
      Stage := PostVesselAnatomyStage,
      CalcFunc := some (X.calcFuncs 105) : CleanupFunc },
    -- rule 106, line 1190
    { Comment := " Remove Bad Data Points",
      Issue := "ENG-1263",
      ShipID := 612,
      Start := parseTime 2021 9 25 16 0 0,
      End := parseTime 2021 9 26 12 0 0,
      Unconditional := true,
      Stage := PostVesselAnatomyStage,
      CalcFunc := some (X.calcFuncs 106) : CleanupFunc },
    -- rule 107, line 1200
    { Comment := "MEFC fallback",
      Issue := "VOTR-85",
      ShipID := 447,
      Start := parseTime 2022 6 9 7 0 0,
      End := parseTime 2022 6 16 0 0 0,
      Unconditional := true,
      Stage := PostVesselAnatomyStage,
      CalcFunc := some (X.calcFuncs 107) : CleanupFunc },
    -- rule 108, line 1210
    { Comment := "MEFC fallback",
      Issue := "VOTR-85",
      ShipID := 447,
      Start := parseTime 2022 6 9 7 0 0,
      End := parseTime 2022 6 16 0 0 0,
      Unconditional := true,
      Stage := PostVesselAnatomyStage,
      CalcFunc := some (X.calcFuncs 108) : CleanupFunc },
    -- rule 109, line 1220
    { Comment := "MEFC fallback",
      Issue := "VOTR-85",
      ShipID := 447,
      Start := parseTime 2022 6 9 7 0 0,
      End := parseTime 2022 6 16 0 0 0,
      Unconditional := true,
      Stage := PostVesselAnatomyStage,
      CalcFunc := some (X.calcFuncs 109) : CleanupFunc },
    -- rule 110, line 1230
    { Comment := "MEFC fallback",
      Issue := "VOTR-85",
      ShipID := 447,
      Start := parseTime 2022 6 9 7 0 0,
      End := parseTime 2022 6 16 0 0 0,
      Unconditional := true,
      Stage := PostVesselAnatomyStage,
      CalcFunc := some (X.calcFuncs 110) : CleanupFunc },
    -- rule 111, line 1240
    { Comment := "Clean fuel data for Coral EnergICE",
      Issue := "DPI-1833",
      ShipID := 759,
      Start := Time.zero,
      End := parseTime 2022 7 21 6 0 0,
      Unconditional := true,
      Stage := PreVesselAnatomyStage,
      CalcFunc := some (X.calcFuncs 111) : CleanupFunc },
    -- rule 112, line 1250
    { Comment := "Clean fuel data for Coral EnergICE",
      Issue := "DPI-1833",
      ShipID := 759,
      Start := parseTime 2022 5 4 2 0 0,
      End := parseTime 2022 5 5 16 0 0,
      Unconditional := true,
      Stage := PreVesselAnatomyStage,
      CalcFunc := some (X.calcFuncs 112) : CleanupFunc },
    -- rule 113, line 1260
    { Comment := "Clean fuel data for Coral EnergICE",
      Issue := "DPI-1833",
      ShipID := 759,
      Start := parseTime 2022 5 15 3 0 0,
      End := parseTime 2022 5 25 7 0 0,
      Unconditional := true,
      Stage := PreVesselAnatomyStage,
      CalcFunc := some (X.calcFuncs 113) : CleanupFunc },
    -- rule 114, line 1270
    { Comment := "Clean fuel data for Coral EnergICE",
      Issue := "DPI-1833",
      ShipID := 759,
      Start := parseTime 2022 6 1 3 0 0,
      End := parseTime 2022 6 3 19 0 0,
      Unconditional := true,
      Stage := PreVesselAnatomyStage,
      CalcFunc := some (X.calcFuncs 114) : CleanupFunc },
    -- rule 115, line 1280
    { Comment := "eps-fairway-remove-change-bad-data",
      Issue := "ENG-1340",
      ShipID := 119,
      Start := parseTime 2022 4 28 0 0 0,
      End := parseTime 2022 4 28 17 0 0,
      Unconditional := true,
      Stage := PostVesselAnatomyStage,
      CalcFunc := some fun pc =>
        let lon := pc.GetProperty "(Noon) Longitude"
        lon.2.SetProperty "(Noon) Longitude" (lon.1 * -1) : CleanupFunc } ]

/-- The first rule for issue NAUT-1860, rule 6 of the catalog. -/
def ruleSensorSTW (X : Externals) : CleanupFunc :=
  { Issue := "NAUT-1860", ShipID := 1, Start := Time.zero, End := Time.zero,
    Unconditional := true, Stage := PostVesselAnatomyStage,
    CalcFunc := some (calcFuncSensorSTW X.labels X.cos) }

/-- The second rule for issue NAUT-1860, rule 7 of the catalog. -/
def ruleModeledSTW (X : Externals) : CleanupFunc :=
  { Issue := "NAUT-1860", ShipID := 1, Start := parseTime 2018 3 1 0 0 0, End := Time.zero,
    Unconditional := true, Stage := PostVesselAnatomyStage,
    CalcFunc := some (calcFuncModeledSTW X.labels) }

/-- Stand-in values for the ship constants. -/
def shipsA : Ships :=
  { EagleJay := 900001,
    EpsMountHermon := 900002,
    EpsSolomonSea := 900003,
    EpsPacificBeryl := 900004,
    Jacaranda := 900005,
    HunterIdun := 900006,
    HunterFrigg := 900007,
    HunterFreya := 900008,
    DbcSincerePisces := 900009,
    HunterAtla := 900010,
    HunterDisen := 900011,
    HunterLaga := 900012,
    HunterSaga := 900013,
    PacificBlue := 900014,
    PacificJade := 900015,
    EpsQuebec := 900016,
    BulkFreedom := 900017,
    EpsPacificDiamond := 900018,
    VectisProgress := 900019,
    EpsIndianSolidarity := 900020,
    EpsMountBolivar := 900021,
    PacificGold := 900022,
    NordicOrion := 900023,
    NordicOlympic := 900024,
    BulkDestiny := 900025,
    PdSana := 900026 }

/-- Stand-in values for what the catalog takes from other packages. -/
def externalsA : Externals :=
  { ships := shipsA, labels := labelsA, cos := cosA, Noon := noonA, KiloWatts := "kW",
    calcFuncs := fun _ pc => pc }

/-! ## The guard -/

theorem calcFunc_of_issue (cfunc : CleanupFunc) (h : cfunc.Issue ≠ "") :
    cfunc.calcFunc = Except.ok cfunc.guard := by
  simp [CleanupFunc.calcFunc, h]

theorem calcFunc_of_no_issue (cfunc : CleanupFunc) (h : cfunc.Issue = "") :
    cfunc.calcFunc = Except.error noIssueMessage := by
  simp [CleanupFunc.calcFunc, h]

theorem guard_of_ship_ne (cfunc : CleanupFunc) (now : Time) (pc : PropertyCalc)
    (h : pc.GetShip.ID ≠ cfunc.ShipID) : cfunc.guard now pc = (pc, []) := by
  simp [CleanupFunc.guard, h]

theorem guard_of_ship_eq (cfunc : CleanupFunc) (now : Time) (pc : PropertyCalc)
    (h : pc.GetShip.ID = cfunc.ShipID) :
    cfunc.guard now pc =
      if cfunc.Start.ns < pc.Time.ns ∧ pc.Time.ns < (cfunc.endTime now).ns
      then cfunc.applyFuncs pc else (pc, []) := by
  simp [CleanupFunc.guard, h, Time.Before, Time.After]

theorem applyFuncs_ne_skip (cfunc : CleanupFunc) (pc : PropertyCalc) :
    cfunc.applyFuncs pc ≠ (pc, []) := by
  intro h
  have h2 := congrArg Prod.snd h
  simp [CleanupFunc.applyFuncs] at h2

theorem guard_matched_iff (cfunc : CleanupFunc) (now : Time) (pc : PropertyCalc)
    (h : pc.GetShip.ID = cfunc.ShipID) :
    cfunc.guard now pc = cfunc.applyFuncs pc ↔
      cfunc.Start.ns < pc.Time.ns ∧ pc.Time.ns < (cfunc.endTime now).ns := by
  rw [guard_of_ship_eq cfunc now pc h]
  constructor
  · intro hg
    by_contra hw
    rw [if_neg hw] at hg
    exact applyFuncs_ne_skip cfunc pc hg.symm
  · intro hw
    rw [if_pos hw]

theorem guard_unmatched (cfunc : CleanupFunc) (now : Time) (pc : PropertyCalc)
    (h : pc.GetShip.ID = cfunc.ShipID)
    (hw : ¬ (cfunc.Start.ns < pc.Time.ns ∧ pc.Time.ns < (cfunc.endTime now).ns)) :
    cfunc.guard now pc = (pc, []) := by
  rw [guard_of_ship_eq cfunc now pc h, if_neg hw]

theorem endTime_of_zero (cfunc : CleanupFunc) (now : Time) (h : cfunc.End.IsZero = true) :
    cfunc.endTime now = now := by
  simp [CleanupFunc.endTime, h]

theorem endTime_of_concrete (cfunc : CleanupFunc) (now : Time) (h : cfunc.End.IsZero = false) :
    cfunc.endTime now = cfunc.End := by
  simp [CleanupFunc.endTime, h]

/-- C1: for a rule with a non-empty issue, `calcFunc` produces a guard, and on
every sample of another ship, at every timestamp and evaluation time, that
guard returns the sample unchanged (properties and position included) with an
empty trace: neither transform is called and nothing is logged. -/
theorem calcFunc_guard_other_ship (cfunc : CleanupFunc) (now : Time) (pc : PropertyCalc)
    (hIssue : cfunc.Issue ≠ "") (hShip : pc.GetShip.ID ≠ cfunc.ShipID) :
    ∃ g, cfunc.calcFunc = Except.ok g ∧ g now pc = (pc, []) :=
  ⟨cfunc.guard, calcFunc_of_issue cfunc hIssue, guard_of_ship_ne cfunc now pc hShip⟩

theorem calcFunc_guard_other_ship_witness :
    ∃ g, ruleA.calcFunc = Except.ok g ∧
      g ⟨150⟩ ⟨{ sampleA with ship := ⟨8⟩ }, true⟩ = (⟨{ sampleA with ship := ⟨8⟩ }, true⟩, []) :=
  calcFunc_guard_other_ship ruleA ⟨150⟩ ⟨{ sampleA with ship := ⟨8⟩ }, true⟩
    (by decide) (by decide)

/-- C2: for a rule with a concrete end and a sample of the rule's ship, the
guard runs the transform block exactly when `Start < Time < End`, both strict,
and otherwise returns the sample unchanged with an empty trace; a sample at
`Start` or at `End` does not match, a sample one nanosecond after `Start` or
one nanosecond before `End` that is still inside the window does. -/
theorem guard_window_open (cfunc : CleanupFunc) (now : Time) (pc : PropertyCalc)
    (hEnd : cfunc.End.IsZero = false) (hShip : pc.GetShip.ID = cfunc.ShipID) :
    (cfunc.guard now pc = cfunc.applyFuncs pc ↔
      cfunc.Start.ns < pc.Time.ns ∧ pc.Time.ns < cfunc.End.ns) ∧
    (¬ (cfunc.Start.ns < pc.Time.ns ∧ pc.Time.ns < cfunc.End.ns) →
      cfunc.guard now pc = (pc, [])) ∧
    (pc.Time = cfunc.Start → cfunc.guard now pc = (pc, [])) ∧
    (pc.Time = cfunc.End → cfunc.guard now pc = (pc, [])) ∧
    (pc.Time = cfunc.Start.Add 1 → pc.Time.ns < cfunc.End.ns →
      cfunc.guard now pc = cfunc.applyFuncs pc) ∧
    (pc.Time = cfunc.End.Add (-1) → cfunc.Start.ns < pc.Time.ns →
      cfunc.guard now pc = cfunc.applyFuncs pc) := by
  have hm := guard_matched_iff cfunc now pc hShip
  have hu := guard_unmatched cfunc now pc hShip
  rw [endTime_of_concrete cfunc now hEnd] at hm hu
  refine ⟨hm, hu, ?_, ?_, ?_, ?_⟩
  · intro ht
    apply hu
    rw [ht]
    omega
  · intro ht
    apply hu
    rw [ht]
    omega
  · intro ht hlt
    apply hm.2
    refine ⟨?_, hlt⟩
    rw [ht]
    simp [Time.Add]
  · intro ht hlt
    apply hm.2
    refine ⟨hlt, ?_⟩
    rw [ht]
    simp [Time.Add]

theorem guard_window_open_witness :
    ruleA.guard ⟨500⟩ ⟨{ sampleA with time := ⟨101⟩ }, true⟩ =
        ruleA.applyFuncs ⟨{ sampleA with time := ⟨101⟩ }, true⟩ ∧
      ruleA.guard ⟨500⟩ ⟨{ sampleA with time := ⟨100⟩ }, true⟩ =
        (⟨{ sampleA with time := ⟨100⟩ }, true⟩, []) ∧
      ruleA.guard ⟨500⟩ ⟨{ sampleA with time := ⟨200⟩ }, true⟩ =
        (⟨{ sampleA with time := ⟨200⟩ }, true⟩, []) :=
  ⟨(guard_window_open ruleA ⟨500⟩ ⟨{ sampleA with time := ⟨101⟩ }, true⟩ rfl rfl).2.2.2.2.1
      rfl (by decide),
    (guard_window_open ruleA ⟨500⟩ ⟨{ sampleA with time := ⟨100⟩ }, true⟩ rfl rfl).2.2.1 rfl,
    (guard_window_open ruleA ⟨500⟩ ⟨{ sampleA with time := ⟨200⟩ }, true⟩ rfl rfl).2.2.2.1 rfl⟩

/-- C3: the end of the window is `now` when the rule's `End` is the zero
instant and `End` itself otherwise, and the guard tests the sample against that
end. For a rule without end and a sample of its ship: a sample later than
`Start` and one nanosecond before `now` matches, a sample at or after `now` is
returned unchanged with an empty trace. -/
theorem guard_end_resolution (cfunc : CleanupFunc) (now : Time) :
    (cfunc.End.IsZero = false → cfunc.endTime now = cfunc.End) ∧
    (cfunc.End.IsZero = true →
      cfunc.endTime now = now ∧
      ∀ pc : PropertyCalc, pc.GetShip.ID = cfunc.ShipID →
        (cfunc.guard now pc = cfunc.applyFuncs pc ↔
          cfunc.Start.ns < pc.Time.ns ∧ pc.Time.ns < now.ns) ∧
        (cfunc.Start.ns < pc.Time.ns → pc.Time = now.Add (-1) →
          cfunc.guard now pc = cfunc.applyFuncs pc) ∧
        (now.ns ≤ pc.Time.ns → cfunc.guard now pc = (pc, []))) := by
  refine ⟨endTime_of_concrete cfunc now, fun hEnd => ⟨endTime_of_zero cfunc now hEnd, ?_⟩⟩
  intro pc hShip
  have hm := guard_matched_iff cfunc now pc hShip
  have hu := guard_unmatched cfunc now pc hShip
  rw [endTime_of_zero cfunc now hEnd] at hm hu
  refine ⟨hm, ?_, ?_⟩
  · intro hlt ht
    apply hm.2
    refine ⟨hlt, ?_⟩
    rw [ht]
    simp [Time.Add]
  · intro hle
    apply hu
    omega

theorem guard_end_resolution_witness :
    ruleA.endTime ⟨500⟩ = ⟨200⟩ ∧ ruleB.endTime ⟨500⟩ = ⟨500⟩ ∧
      ruleB.guard ⟨151⟩ ⟨sampleA, false⟩ = ruleB.applyFuncs ⟨sampleA, false⟩ ∧
      ruleB.guard ⟨150⟩ ⟨sampleA, false⟩ = (⟨sampleA, false⟩, []) :=
  ⟨(guard_end_resolution ruleA ⟨500⟩).1 rfl,
    ((guard_end_resolution ruleB ⟨500⟩).2 rfl).1,
    (((guard_end_resolution ruleB ⟨151⟩).2 rfl).2 ⟨sampleA, false⟩ rfl).2.1 (by decide) rfl,
    (((guard_end_resolution ruleB ⟨150⟩).2 rfl).2 ⟨sampleA, false⟩ rfl).2.2 (by decide)⟩

/-! ## The catalog compiler -/

theorem skip_test_eq (stage : Stage) (onlyUnconditional : Bool) (c : CleanupFunc) :
    (onlyUnconditional && !c.Unconditional || stage != c.Stage) =
      !selected stage onlyUnconditional c := by
  unfold selected
  by_cases hs : c.Stage = stage
  · have h1 : (stage != c.Stage) = false := by rw [hs]; exact bne_self_eq_false stage
    have h2 : (c.Stage == stage) = true := by rw [hs]; exact beq_self_eq_true stage
    rw [h1, h2]
    cases onlyUnconditional <;> cases c.Unconditional <;> rfl
  · have h1 : (stage != c.Stage) = true := bne_iff_ne.mpr fun h => hs h.symm
    have h2 : (c.Stage == stage) = false := beq_eq_false_iff_ne.mpr hs
    rw [h1, h2]
    cases onlyUnconditional <;> cases c.Unconditional <;> rfl

theorem loop_eq (stage : Stage) (onlyUnconditional : Bool) (catalog : List CleanupFunc)
    (acc : List Guard) :
    CleanupFuncs.loop stage onlyUnconditional catalog acc =
      if ((catalog.filter (selected stage onlyUnconditional)).all fun c => c.Issue != "") = true
      then Except.ok (acc ++ (catalog.filter (selected stage onlyUnconditional)).map
        CleanupFunc.guard)
      else Except.error noIssueMessage := by
  induction catalog generalizing acc with
  | nil => simp [CleanupFuncs.loop]
  | cons c rest ih =>
    rw [CleanupFuncs.loop, skip_test_eq]
    by_cases hsel : selected stage onlyUnconditional c = true
    · by_cases hIssue : c.Issue = ""
      · simp [hsel, calcFunc_of_no_issue c hIssue, hIssue]
      · simp [hsel, calcFunc_of_issue c hIssue, hIssue, ih]
    · simp [hsel, ih]

theorem CleanupFuncs_eq (catalog : List CleanupFunc) (stage : Stage) (onlyUnconditional : Bool) :
    CleanupFuncs catalog stage onlyUnconditional =
      if ((catalog.filter (selected stage onlyUnconditional)).all fun c => c.Issue != "") = true
      then Except.ok ((catalog.filter (selected stage onlyUnconditional)).map CleanupFunc.guard)
      else Except.error noIssueMessage := by
  rw [CleanupFuncs, loop_eq]
  simp

theorem CleanupFuncs_of_issues (catalog : List CleanupFunc) (stage : Stage)
    (onlyUnconditional : Bool)
    (h : ∀ c ∈ catalog, selected stage onlyUnconditional c = true → c.Issue ≠ "") :
    CleanupFuncs catalog stage onlyUnconditional =
      Except.ok ((catalog.filter (selected stage onlyUnconditional)).map CleanupFunc.guard) := by
  rw [CleanupFuncs_eq, if_pos]
  simp only [List.all_eq_true, List.mem_filter]
  intro c hc
  simpa using h c hc.1 hc.2

theorem CleanupFuncs_of_ok (catalog : List CleanupFunc) (stage : Stage)
    (onlyUnconditional : Bool) (gs : List Guard)
    (h : CleanupFuncs catalog stage onlyUnconditional = Except.ok gs) :
    gs = (catalog.filter (selected stage onlyUnconditional)).map CleanupFunc.guard := by
  rw [CleanupFuncs_eq] at h
  split at h
  · exact (Except.ok.inj h).symm
  · cases h

theorem CleanupFuncs_restrict (catalog : List CleanupFunc) (stage : Stage)
    (onlyUnconditional : Bool) (p : CleanupFunc → Bool)
    (hp : ∀ c, selected stage onlyUnconditional c = true → p c = true) :
    CleanupFuncs (catalog.filter p) stage onlyUnconditional =
      CleanupFuncs catalog stage onlyUnconditional := by
  have hf : (catalog.filter p).filter (selected stage onlyUnconditional) =
      catalog.filter (selected stage onlyUnconditional) := by
    rw [List.filter_filter]
    congr 1
    funext c
    by_cases hc : selected stage onlyUnconditional c = true
    · simp [hc, hp c hc]
    · simp [hc]
  rw [CleanupFuncs_eq, CleanupFuncs_eq, hf]

theorem selected_true_eq (stage : Stage) :
    selected stage true = fun c => c.Unconditional && c.Stage == stage := by
  funext c
  simp [selected]

theorem selected_stage (stage : Stage) (onlyUnconditional : Bool) (c : CleanupFunc)
    (h : selected stage onlyUnconditional c = true) : c.Stage = stage := by
  unfold selected at h
  rw [Bool.and_eq_true] at h
  exact eq_of_beq h.2

theorem stages_ne : PreVesselAnatomyStage ≠ PostVesselAnatomyStage := by decide

/-- C4: with `onlyUnconditional = true` the result of `CleanupFuncs`, abort
included, is the result on the catalog without its conditional rules; when it
returns, the guards are those of the rules with `Unconditional = true` and
`Stage = stage`, in catalog order, and their number is the number of such
rules; it returns whenever each such rule has an issue. -/
theorem CleanupFuncs_only_unconditional (catalog : List CleanupFunc) (stage : Stage) :
    CleanupFuncs catalog stage true =
        CleanupFuncs (catalog.filter fun c => c.Unconditional) stage true ∧
    (∀ gs, CleanupFuncs catalog stage true = Except.ok gs →
      gs = (catalog.filter fun c => c.Unconditional && c.Stage == stage).map
        CleanupFunc.guard ∧
      gs.length = catalog.countP fun c => c.Unconditional && c.Stage == stage) ∧
    ((∀ c ∈ catalog, c.Unconditional = true → c.Stage = stage → c.Issue ≠ "") →
      ∃ gs, CleanupFuncs catalog stage true = Except.ok gs) := by
  refine ⟨?_, ?_, ?_⟩
  · symm
    apply CleanupFuncs_restrict
    intro c hc
    rw [selected_true_eq] at hc
    simp only [Bool.and_eq_true] at hc
    exact hc.1
  · intro gs hgs
    have h := CleanupFuncs_of_ok catalog stage true gs hgs
    rw [selected_true_eq] at h
    refine ⟨h, ?_⟩
    rw [h, List.length_map, List.countP_eq_length_filter]
  · intro h
    refine ⟨_, CleanupFuncs_of_issues catalog stage true ?_⟩
    intro c hc hsel
    rw [selected_true_eq] at hsel
    simp only [Bool.and_eq_true, beq_iff_eq] at hsel
    exact h c hc hsel.1 hsel.2

theorem CleanupFuncs_only_unconditional_witness :
    ∃ gs, CleanupFuncs [ruleA, ruleB, ruleNoIssue] PostVesselAnatomyStage true = Except.ok gs ∧
      gs.length = 1 := by
  obtain ⟨gs, hgs⟩ :=
    (CleanupFuncs_only_unconditional [ruleA, ruleB, ruleNoIssue] PostVesselAnatomyStage).2.2
      (by decide)
  refine ⟨gs, hgs, ?_⟩
  rw [((CleanupFuncs_only_unconditional [ruleA, ruleB, ruleNoIssue]
    PostVesselAnatomyStage).2.1 gs hgs).2]
  decide

/-- C5: the result of `CleanupFuncs`, abort included, is the result on the
catalog restricted to the rules of the requested stage; when it returns, the
guards are those of a sublist of the catalog all of whose rules have
`Stage = stage`, so a compile for the pre stage holds no rule of the post
stage and a compile for the post stage no rule of the pre stage. -/
theorem CleanupFuncs_stage (catalog : List CleanupFunc) (stage : Stage)
    (onlyUnconditional : Bool) :
    CleanupFuncs catalog stage onlyUnconditional =
        CleanupFuncs (catalog.filter fun c => c.Stage == stage) stage onlyUnconditional ∧
    (∀ gs, CleanupFuncs catalog stage onlyUnconditional = Except.ok gs →
      ∃ rules : List CleanupFunc, rules.Sublist catalog ∧
        gs = rules.map CleanupFunc.guard ∧
        ∀ c ∈ rules, c.Stage = stage ∧
          (stage = PreVesselAnatomyStage → c.Stage ≠ PostVesselAnatomyStage) ∧
          (stage = PostVesselAnatomyStage → c.Stage ≠ PreVesselAnatomyStage)) := by
  refine ⟨?_, ?_⟩
  · symm
    apply CleanupFuncs_restrict
    intro c hc
    rw [selected_stage stage onlyUnconditional c hc]
    exact beq_self_eq_true stage
  · intro gs hgs
    refine ⟨catalog.filter (selected stage onlyUnconditional), List.filter_sublist catalog,
      CleanupFuncs_of_ok catalog stage onlyUnconditional gs hgs, ?_⟩
    intro c hc
    have hs := selected_stage stage onlyUnconditional c (List.mem_filter.mp hc).2
    refine ⟨hs, ?_, ?_⟩
    · intro h
      rw [hs, h]
      exact stages_ne
    · intro h
      rw [hs, h]
      exact stages_ne.symm

theorem CleanupFuncs_stage_witness :
    ∃ rules : List CleanupFunc, rules.Sublist [ruleA, ruleB] ∧
      [ruleA.guard] = rules.map CleanupFunc.guard ∧
      ∀ c ∈ rules, c.Stage = PreVesselAnatomyStage ∧
        (PreVesselAnatomyStage = PreVesselAnatomyStage → c.Stage ≠ PostVesselAnatomyStage) ∧
        (PreVesselAnatomyStage = PostVesselAnatomyStage → c.Stage ≠ PreVesselAnatomyStage) :=
  (CleanupFuncs_stage [ruleA, ruleB] PreVesselAnatomyStage false).2 [ruleA.guard] rfl

/-- C6: when every rule the stage and the flag select has an issue,
`CleanupFuncs` returns the catalog filtered by
`(not onlyUnconditional or Unconditional) and Stage = stage` and mapped to the
guards `calcFunc` returns, in catalog order: as many guards as selected rules,
the i-th guard being the guard of the i-th selected rule. -/
theorem CleanupFuncs_filter_map (catalog : List CleanupFunc) (stage : Stage)
    (onlyUnconditional : Bool)
    (h : ∀ c ∈ catalog,
      ((!onlyUnconditional || c.Unconditional) && c.Stage == stage) = true → c.Issue ≠ "") :
    CleanupFuncs catalog stage onlyUnconditional =
      Except.ok ((catalog.filter fun c =>
        (!onlyUnconditional || c.Unconditional) && c.Stage == stage).map CleanupFunc.guard) ∧
    (∀ c ∈ catalog.filter fun c =>
        (!onlyUnconditional || c.Unconditional) && c.Stage == stage,
      c.calcFunc = Except.ok c.guard) ∧
    ∃ gs, CleanupFuncs catalog stage onlyUnconditional = Except.ok gs ∧
      gs.length = (catalog.filter fun c =>
        (!onlyUnconditional || c.Unconditional) && c.Stage == stage).length ∧
      ∀ i : Nat, gs[i]? = ((catalog.filter fun c =>
        (!onlyUnconditional || c.Unconditional) && c.Stage == stage)[i]?).map
          CleanupFunc.guard := by
  have hEq := CleanupFuncs_of_issues catalog stage onlyUnconditional h
  refine ⟨hEq, ?_, _, hEq, ?_, ?_⟩
  · intro c hc
    rw [List.mem_filter] at hc
    exact calcFunc_of_issue c (h c hc.1 hc.2)
  · exact List.length_map _ _
  · intro i
    exact List.getElem?_map _ _ _

theorem CleanupFuncs_filter_map_witness :
    CleanupFuncs [ruleNoIssue, ruleB, ruleA, ruleB] PostVesselAnatomyStage false =
      Except.ok [ruleB.guard, ruleB.guard] :=
  (CleanupFuncs_filter_map [ruleNoIssue, ruleB, ruleA, ruleB] PostVesselAnatomyStage false
    (by decide)).1

/-- C7, as stated, fails: a catalog whose only rule without issue belongs to
the pre stage compiles for the post stage without abort and returns a guard. -/
theorem CleanupFuncs_no_issue_skipped :
    (∃ c ∈ [ruleNoIssue, ruleB], c.Issue = "") ∧
      CleanupFuncs [ruleNoIssue, ruleB] PostVesselAnatomyStage true =
        Except.ok [ruleB.guard] :=
  ⟨⟨ruleNoIssue, by simp, rfl⟩, rfl⟩

/-- C7, amended: `CleanupFuncs` aborts, with the panic of `calcFunc` and
without a guard sequence, exactly when the catalog holds a rule with an empty
`Issue` that the requested stage and flag select (its `Stage` is the requested
one and, under `onlyUnconditional`, it is unconditional), whatever the other
rules are; otherwise it returns. -/
theorem CleanupFuncs_abort_iff (catalog : List CleanupFunc) (stage : Stage)
    (onlyUnconditional : Bool) :
    ((∃ c ∈ catalog, c.Issue = "" ∧ c.Stage = stage ∧
        (onlyUnconditional = true → c.Unconditional = true)) ↔
      CleanupFuncs catalog stage onlyUnconditional = Except.error noIssueMessage) ∧
    ((¬ ∃ c ∈ catalog, c.Issue = "" ∧ c.Stage = stage ∧
        (onlyUnconditional = true → c.Unconditional = true)) ↔
      ∃ gs, CleanupFuncs catalog stage onlyUnconditional = Except.ok gs) := by
  have hAll : ((catalog.filter (selected stage onlyUnconditional)).all
      fun c => c.Issue != "") = true ↔
      ¬ ∃ c ∈ catalog, c.Issue = "" ∧ c.Stage = stage ∧
        (onlyUnconditional = true → c.Unconditional = true) := by
    simp only [List.all_eq_true, List.mem_filter, selected, Bool.and_eq_true,
      Bool.or_eq_true, Bool.not_eq_true', beq_iff_eq, bne_iff_ne, ne_eq]
    constructor
    · rintro h ⟨c, hc, hI, hS, hU⟩
      refine h c ⟨hc, ?_, hS⟩ hI
      cases onlyUnconditional
      · exact Or.inl rfl
      · exact Or.inr (hU rfl)
    · rintro h c ⟨hc, hU, hS⟩ hI
      refine h ⟨c, hc, hI, hS, ?_⟩
      intro ho
      rcases hU with hU | hU
      · rw [ho] at hU
        cases hU
      · exact hU
  rw [CleanupFuncs_eq]
  by_cases hA : ((catalog.filter (selected stage onlyUnconditional)).all
      fun c => c.Issue != "") = true
  · have hN := hAll.mp hA
    rw [if_pos hA]
    constructor
    · constructor
      · intro h
        exact absurd h hN
      · intro h
        cases h
    · constructor
      · intro _
        exact ⟨_, rfl⟩
      · intro _
        exact hN
  · have hN : ¬ ¬ ∃ c ∈ catalog, c.Issue = "" ∧ c.Stage = stage ∧
        (onlyUnconditional = true → c.Unconditional = true) := fun h => hA (hAll.mpr h)
    rw [if_neg hA]
    constructor
    · constructor
      · intro _
        rfl
      · intro _
        exact not_not.mp hN
    · constructor
      · intro h
        exact absurd h hN
      · rintro ⟨gs, hgs⟩
        cases hgs

theorem CleanupFuncs_abort_iff_witness :
    CleanupFuncs [ruleA, ruleNoIssue, ruleB] PreVesselAnatomyStage true =
      Except.error noIssueMessage :=
  (CleanupFuncs_abort_iff [ruleA, ruleNoIssue, ruleB] PreVesselAnatomyStage true).1.mp
    ⟨ruleNoIssue, by simp, rfl, rfl, fun _ => rfl⟩

/-- C8: when every rule of the catalog has a non-empty `Issue`, `CleanupFuncs`
returns a guard sequence for every stage and flag, and `calcFunc` on a rule
fails exactly when the rule's `Issue` is the empty string. -/
theorem CleanupFuncs_returns (catalog : List CleanupFunc) (stage : Stage)
    (onlyUnconditional : Bool) (h : ∀ c ∈ catalog, c.Issue ≠ "") :
    (∃ gs, CleanupFuncs catalog stage onlyUnconditional = Except.ok gs) ∧
    ∀ c : CleanupFunc, (∃ e, c.calcFunc = Except.error e) ↔ c.Issue = "" := by
  refine ⟨⟨_, CleanupFuncs_of_issues catalog stage onlyUnconditional fun c hc _ => h c hc⟩, ?_⟩
  intro c
  constructor
  · rintro ⟨e, he⟩
    by_contra hI
    rw [calcFunc_of_issue c hI] at he
    cases he
  · intro hI
    exact ⟨_, calcFunc_of_no_issue c hI⟩

theorem CleanupFuncs_returns_witness :
    (∃ gs, CleanupFuncs [ruleA, ruleB] PreVesselAnatomyStage false = Except.ok gs) ∧
      ∀ c : CleanupFunc, (∃ e, c.calcFunc = Except.error e) ↔ c.Issue = "" :=
  CleanupFuncs_returns [ruleA, ruleB] PreVesselAnatomyStage false (by decide)

/-! ## The transform block -/

theorem guard_of_window (cfunc : CleanupFunc) (now : Time) (pc : PropertyCalc)
    (hShip : pc.GetShip.ID = cfunc.ShipID)
    (hWin : cfunc.Start.ns < pc.Time.ns ∧ pc.Time.ns < (cfunc.endTime now).ns) :
    cfunc.guard now pc = cfunc.applyFuncs pc :=
  (guard_matched_iff cfunc now pc hShip).mpr hWin

/-- C9: on a matching sample that supports bulk clear the guard leaves the
state `CleanFunc` (if present) makes of the state `CalcFunc` (if present) makes
of the sample, calling them in that order: with both, `CleanFunc` applied to
the result of `CalcFunc`; with one, that transform alone; with neither, the
sample as it was. -/
theorem guard_applies_in_order (cfunc : CleanupFunc) (now : Time) (pc : PropertyCalc)
    (hClear : pc.bulkClear = true) (hShip : pc.GetShip.ID = cfunc.ShipID)
    (hWin : cfunc.Start.ns < pc.Time.ns ∧ pc.Time.ns < (cfunc.endTime now).ns) :
    (cfunc.guard now pc).1.sample =
        (cfunc.CleanFunc.getD id) ((cfunc.CalcFunc.getD id) pc.sample) ∧
    (cfunc.guard now pc).1.bulkClear = true ∧
    (∀ f g, cfunc.CalcFunc = some f → cfunc.CleanFunc = some g →
      cfunc.guard now pc = (⟨g (f pc.sample), true⟩,
        [Event.debugCleaning pc.Time pc.GetShip.ID cfunc.Issue,
          Event.callCalcFunc, Event.callCleanFunc])) ∧
    (∀ f, cfunc.CalcFunc = some f → cfunc.CleanFunc = none →
      cfunc.guard now pc = (⟨f pc.sample, true⟩,
        [Event.debugCleaning pc.Time pc.GetShip.ID cfunc.Issue, Event.callCalcFunc])) ∧
    (∀ g, cfunc.CalcFunc = none → cfunc.CleanFunc = some g →
      cfunc.guard now pc = (⟨g pc.sample, true⟩,
        [Event.debugCleaning pc.Time pc.GetShip.ID cfunc.Issue, Event.callCleanFunc])) ∧
    (cfunc.CalcFunc = none → cfunc.CleanFunc = none →
      cfunc.guard now pc = (pc, [Event.debugCleaning pc.Time pc.GetShip.ID cfunc.Issue])) := by
  rw [guard_of_window cfunc now pc hShip hWin]
  obtain ⟨s, b⟩ := pc
  simp only at hClear
  subst hClear
  refine ⟨?_, ?_, ?_, ?_, ?_, ?_⟩
  · cases hf : cfunc.CalcFunc <;> cases hg : cfunc.CleanFunc <;>
      simp [CleanupFunc.applyFuncs, CleanupFunc.runCalc, CleanupFunc.runClean, hf, hg]
  · cases hf : cfunc.CalcFunc <;> cases hg : cfunc.CleanFunc <;>
      simp [CleanupFunc.applyFuncs, CleanupFunc.runCalc, CleanupFunc.runClean, hf, hg]
  · intro f g hf hg
    simp [CleanupFunc.applyFuncs, CleanupFunc.runCalc, CleanupFunc.runClean, hf, hg]
  · intro f hf hg
    simp [CleanupFunc.applyFuncs, CleanupFunc.runCalc, CleanupFunc.runClean, hf, hg]
  · intro g hf hg
    simp [CleanupFunc.applyFuncs, CleanupFunc.runCalc, CleanupFunc.runClean, hf, hg]
  · intro hf hg
    simp [CleanupFunc.applyFuncs, CleanupFunc.runCalc, CleanupFunc.runClean, hf, hg]

theorem guard_applies_in_order_witness :
    ruleA.guard ⟨500⟩ ⟨sampleA, true⟩ = (⟨wipe (setShaftPower sampleA), true⟩,
      [Event.debugCleaning ⟨150⟩ 7 "NAUT-1", Event.callCalcFunc, Event.callCleanFunc]) :=
  (guard_applies_in_order ruleA ⟨500⟩ ⟨sampleA, true⟩ rfl rfl
    ⟨by decide, by decide⟩).2.2.1 setShaftPower wipe rfl rfl

/-- C10: on a matching sample that does not support bulk clear, the guard of a
rule with a `CleanFunc` returns, logs the failed type assertion instead of
calling `CleanFunc`, and leaves the state `CalcFunc` alone makes of the sample
(the sample as it was when `CalcFunc` is absent); the outcome is the same
whatever the `CleanFunc` is. -/
theorem guard_without_bulk_clear (cfunc : CleanupFunc) (now : Time) (pc : PropertyCalc)
    (g : Sample → Sample) (hg : cfunc.CleanFunc = some g) (hClear : pc.bulkClear = false)
    (hShip : pc.GetShip.ID = cfunc.ShipID)
    (hWin : cfunc.Start.ns < pc.Time.ns ∧ pc.Time.ns < (cfunc.endTime now).ns) :
    cfunc.guard now pc = (⟨(cfunc.CalcFunc.getD id) pc.sample, false⟩,
      Event.debugCleaning pc.Time pc.GetShip.ID cfunc.Issue ::
        ((cfunc.runCalc pc).2 ++ [Event.debugNotPropertyClean])) ∧
    Event.callCleanFunc ∉ (cfunc.guard now pc).2 ∧
    (cfunc.guard now pc).1 = (cfunc.runCalc pc).1 ∧
    (∀ f, cfunc.CalcFunc = some f → (cfunc.guard now pc).1.sample = f pc.sample) ∧
    (cfunc.CalcFunc = none → (cfunc.guard now pc).1 = pc) ∧
    ∀ g2 : Sample → Sample,
      ({ cfunc with CleanFunc := some g2 } : CleanupFunc).guard now pc = cfunc.guard now pc := by
  have hAll : ∀ g2 : Sample → Sample,
      ({ cfunc with CleanFunc := some g2 } : CleanupFunc).guard now pc =
        (⟨(cfunc.CalcFunc.getD id) pc.sample, false⟩,
          Event.debugCleaning pc.Time pc.GetShip.ID cfunc.Issue ::
            ((cfunc.runCalc pc).2 ++ [Event.debugNotPropertyClean])) := by
    intro g2
    have hG := guard_of_window ({ cfunc with CleanFunc := some g2 } : CleanupFunc) now pc
      hShip hWin
    rw [hG]
    obtain ⟨s, b⟩ := pc
    simp only at hClear
    subst hClear
    cases hf : cfunc.CalcFunc <;>
      simp [CleanupFunc.applyFuncs, CleanupFunc.runCalc, CleanupFunc.runClean, hf]
  have hSelf : ({ cfunc with CleanFunc := some g } : CleanupFunc) = cfunc := by
    rw [← hg]
  have hOut := hAll g
  rw [hSelf] at hOut
  refine ⟨hOut, ?_, ?_, ?_, ?_, ?_⟩
  · rw [hOut]
    cases hf : cfunc.CalcFunc <;> simp [CleanupFunc.runCalc, hf]
  · rw [hOut]
    obtain ⟨s, b⟩ := pc
    simp only at hClear
    subst hClear
    cases hf : cfunc.CalcFunc <;> simp [CleanupFunc.runCalc, hf]
  · intro f hf
    rw [hOut]
    simp [hf]
  · intro hf
    rw [hOut]
    obtain ⟨s, b⟩ := pc
    simp only at hClear
    subst hClear
    simp [hf]
  · intro g2
    rw [hAll g2, hOut]

theorem guard_without_bulk_clear_witness :
    ruleA.guard ⟨500⟩ ⟨sampleA, false⟩ = (⟨setShaftPower sampleA, false⟩,
      [Event.debugCleaning ⟨150⟩ 7 "NAUT-1", Event.callCalcFunc,
        Event.debugNotPropertyClean]) :=
  (guard_without_bulk_clear ruleA ⟨500⟩ ⟨sampleA, false⟩ wipe rfl rfl rfl
    ⟨by decide, by decide⟩).1

/-! ## No match -/

/-- C11: on a sample of the rule's ship whose timestamp is not strictly
between `Start` and the end of the window (`End`, or `now` when `End` is the
zero instant), the guard returns the sample unchanged, every property and the
position included, with an empty trace: no transform is called and nothing is
logged. -/
theorem guard_no_match (cfunc : CleanupFunc) (now : Time) (pc : PropertyCalc)
    (hShip : pc.GetShip.ID = cfunc.ShipID)
    (hWin : ¬ (cfunc.Start.ns < pc.Time.ns ∧ pc.Time.ns < (cfunc.endTime now).ns)) :
    cfunc.guard now pc = (pc, []) ∧
    (∀ label, (cfunc.guard now pc).1.sample.props label = pc.sample.props label) ∧
    (cfunc.guard now pc).1.sample.position = pc.sample.position ∧
    Event.callCalcFunc ∉ (cfunc.guard now pc).2 ∧
    Event.callCleanFunc ∉ (cfunc.guard now pc).2 := by
  have h := guard_unmatched cfunc now pc hShip hWin
  rw [h]
  simp

theorem guard_no_match_witness :
    ruleA.guard ⟨500⟩ ⟨{ sampleA with time := ⟨200⟩ }, true⟩ =
        (⟨{ sampleA with time := ⟨200⟩ }, true⟩, []) ∧
      ruleB.guard ⟨120⟩ ⟨sampleA, true⟩ = (⟨sampleA, true⟩, []) :=
  ⟨(guard_no_match ruleA ⟨500⟩ ⟨{ sampleA with time := ⟨200⟩ }, true⟩ rfl (by decide)).1,
    (guard_no_match ruleB ⟨120⟩ ⟨sampleA, true⟩ rfl (by decide)).1⟩

/-- C12: for a rule whose `End` is the zero instant, a sample the guard
matches at the evaluation instant `now1` is matched at every later instant
`now2`, with the same outcome. -/
theorem guard_match_monotone (cfunc : CleanupFunc) (now1 now2 : Time) (pc : PropertyCalc)
    (hEnd : cfunc.End.IsZero = true) (hLe : now1.ns ≤ now2.ns)
    (hMatch : cfunc.guard now1 pc = cfunc.applyFuncs pc) :
    cfunc.guard now2 pc = cfunc.applyFuncs pc ∧ cfunc.guard now2 pc = cfunc.guard now1 pc := by
  have hShip : pc.GetShip.ID = cfunc.ShipID := by
    by_contra hne
    rw [guard_of_ship_ne cfunc now1 pc hne] at hMatch
    exact applyFuncs_ne_skip cfunc pc hMatch.symm
  have h1 := (guard_matched_iff cfunc now1 pc hShip).mp hMatch
  rw [endTime_of_zero cfunc now1 hEnd] at h1
  have h2 : cfunc.guard now2 pc = cfunc.applyFuncs pc := by
    apply (guard_matched_iff cfunc now2 pc hShip).mpr
    rw [endTime_of_zero cfunc now2 hEnd]
    exact ⟨h1.1, by omega⟩
  exact ⟨h2, by rw [h2, hMatch]⟩

theorem guard_match_monotone_witness :
    ruleB.guard ⟨900⟩ ⟨sampleA, false⟩ = ruleB.applyFuncs ⟨sampleA, false⟩ ∧
      ruleB.guard ⟨900⟩ ⟨sampleA, false⟩ = ruleB.guard ⟨151⟩ ⟨sampleA, false⟩ :=
  guard_match_monotone ruleB ⟨151⟩ ⟨900⟩ ⟨sampleA, false⟩ rfl (by decide) rfl

/-! ## The estimator -/

theorem GetProperty_fst (pc : Sample) (l : String) :
    (pc.GetProperty l).1 = (pc.props l).getD 0 := by
  unfold Sample.GetProperty
  cases pc.props l <;> rfl

theorem GetProperty_snd (pc : Sample) (l : String) :
    (pc.GetProperty l).2 = { pc with err := pc.err || (pc.props l).isNone } := by
  unfold Sample.GetProperty
  cases h : pc.props l <;> simp

theorem except_ok_bind {α β : Type} (a : α) (f : α → Except String β) :
    (Except.ok a >>= f) = f a := rfl

theorem copernicusModeledSTW_eq (L : Labels) (cos : Rat → Rat) (pc : Sample) :
    copernicusModeledSTW L cos pc = Except.ok
      (if (pc.err || (requiredInputs L).any fun l => (pc.props l).isNone) = true then none
        else some (specModeledSTW ((pc.props L.ShaftSpeed).getD 0)
          ((pc.props L.DraftAft).getD 0) ((pc.props L.Trim).getD 0)
          ((pc.props L.WS_SigWaveHeight).getD 0)
          (ScalarProjection cos ((pc.props L.WS_SeaCurSpeed).getD 0)
            ((pc.props L.WS_SeaCurDir).getD 0) ((pc.props L.Heading).getD 0))
          (ScalarProjection cos ((pc.props L.WS_TrueWindSpeed).getD 0)
            ((pc.props L.WS_TrueWindDir).getD 0) ((pc.props L.Heading).getD 0))),
        { pc with err := pc.err || (requiredInputs L).any fun l => (pc.props l).isNone }) := by
  have hErr : (pc.err || (pc.props L.WS_TrueWindSpeed).isNone ||
      (pc.props L.WS_TrueWindDir).isNone || (pc.props L.Heading).isNone ||
      (pc.props L.WS_SeaCurSpeed).isNone || (pc.props L.WS_SeaCurDir).isNone ||
      (pc.props L.Heading).isNone || (pc.props L.ShaftSpeed).isNone ||
      (pc.props L.DraftAft).isNone || (pc.props L.Trim).isNone ||
      (pc.props L.WS_SigWaveHeight).isNone) =
      (pc.err || (requiredInputs L).any fun l => (pc.props l).isNone) := by
    rw [Bool.eq_iff_iff]
    simp only [requiredInputs, List.any_cons, List.any_nil, Bool.or_eq_true, Bool.or_false]
    tauto
  simp only [copernicusModeledSTW, GetProperty_fst, GetProperty_snd, index, coeffs,
    Sample.HasError, List.getElem?_cons_zero, List.getElem?_cons_succ, except_ok_bind, hErr]
  split
  · rfl
  · show Except.ok _ = Except.ok _
    congr 3
    unfold specModeledSTW
    ring

theorem any_absent_of_mem (L : Labels) (pc : Sample)
    (h : ∃ l ∈ requiredInputs L, pc.props l = none) :
    ((requiredInputs L).any fun l => (pc.props l).isNone) = true := by
  obtain ⟨l, hl, hn⟩ := h
  rw [List.any_eq_true]
  exact ⟨l, hl, by rw [hn]; rfl⟩

theorem any_absent_of_all (L : Labels) (pc : Sample)
    (h : ∀ l ∈ requiredInputs L, ∃ v, pc.props l = some v) :
    ((requiredInputs L).any fun l => (pc.props l).isNone) = false := by
  rw [List.any_eq_false]
  intro l hl
  obtain ⟨v, hv⟩ := h l hl
  rw [hv]
  simp

theorem sample_err_eta (pc : Sample) (h : pc.err = false) :
    { pc with err := false } = pc := by
  cases pc
  simp only at h
  subst h
  rfl

/-- C13: `copernicusModeledSTW` returns, and its result is absent exactly when
the sample reports an error after the reads: that is when the error state was
set before the call or one of the properties it reads is absent. When one of
them is absent the result is absent, not 0; when the error state was clear and
all of them are present the result is present. -/
theorem copernicusModeledSTW_absent_iff (L : Labels) (cos : Rat → Rat) (pc : Sample) :
    ∃ r pc2, copernicusModeledSTW L cos pc = Except.ok (r, pc2) ∧
      (r = none ↔ pc2.HasError = true) ∧
      pc2.HasError = (pc.HasError || (requiredInputs L).any fun l => (pc.props l).isNone) ∧
      ((∃ l ∈ requiredInputs L, pc.props l = none) → r = none ∧ r ≠ some 0) ∧
      (pc.HasError = false → (∀ l ∈ requiredInputs L, ∃ v, pc.props l = some v) →
        ∃ v, r = some v) := by
  refine ⟨_, _, copernicusModeledSTW_eq L cos pc, ?_, rfl, ?_, ?_⟩
  · simp only [Sample.HasError]
    split <;> simp_all
  · intro h
    rw [any_absent_of_mem L pc h]
    simp
  · intro hErr hAll
    simp only [Sample.HasError] at hErr
    rw [any_absent_of_all L pc hAll, hErr]
    exact ⟨_, rfl⟩

theorem copernicusModeledSTW_absent_iff_witness :
    ∃ r pc2, copernicusModeledSTW labelsA cosA sampleNoTrim = Except.ok (r, pc2) ∧
      r = none ∧ pc2.HasError = true := by
  obtain ⟨r, pc2, hEq, hIff, _, hAbsent, _⟩ :=
    copernicusModeledSTW_absent_iff labelsA cosA sampleNoTrim
  have hr := (hAbsent ⟨"Trim", by decide, rfl⟩).1
  exact ⟨r, pc2, hEq, hr, hIff.mp hr⟩

/-- C14: on a sample whose error state is clear and on which every property
the estimator reads is present, `copernicusModeledSTW` returns, present, the
value of the model at the shaft speed, the aft draft, the trim, the wave height
and the projections `c = curSpeed * cos(curDir - heading)` and
`w = windSpeed * cos(windDir - heading)`, and leaves the sample as it was. With
`cos 0 = 1`, heading 0, wind direction 0, wind speed 10 and current speed,
shaft speed, draft, trim and wave height 0: `w = 10`, `c = 0` and the result is
`1.4246 - 0.3555342 - 0.0633009 = 1.0057649`. -/
theorem copernicusModeledSTW_model (L : Labels) (cos : Rat → Rat) (pc : Sample)
    (windSpeed windDir heading curSpeed curDir shaftSpeed draftAft trim waveHeight : Rat)
    (hErr : pc.HasError = false)
    (hWindSpeed : pc.props L.WS_TrueWindSpeed = some windSpeed)
    (hWindDir : pc.props L.WS_TrueWindDir = some windDir)
    (hHeading : pc.props L.Heading = some heading)
    (hCurSpeed : pc.props L.WS_SeaCurSpeed = some curSpeed)
    (hCurDir : pc.props L.WS_SeaCurDir = some curDir)
    (hShaftSpeed : pc.props L.ShaftSpeed = some shaftSpeed)
    (hDraftAft : pc.props L.DraftAft = some draftAft)
    (hTrim : pc.props L.Trim = some trim)
    (hWaveHeight : pc.props L.WS_SigWaveHeight = some waveHeight) :
    copernicusModeledSTW L cos pc = Except.ok
      (some (0.191637416 * shaftSpeed - 0.153619789 * draftAft - 0.123217962 * trim -
        0.324622524 * waveHeight +
        0.057272980 * (curSpeed * cos (curDir - heading)) * (curSpeed * cos (curDir - heading)) +
        0.044914439 * (curSpeed * cos (curDir - heading)) -
        0.035553420 * (windSpeed * cos (windDir - heading)) -
        0.000633009 * (windSpeed * cos (windDir - heading)) *
          (windSpeed * cos (windDir - heading)) + 1.4246), pc) ∧
    (cos 0 = 1 → heading = 0 → windDir = 0 → windSpeed = 10 → curSpeed = 0 →
      shaftSpeed = 0 → draftAft = 0 → trim = 0 → waveHeight = 0 →
      ScalarProjection cos windSpeed windDir heading = 10 ∧
      ScalarProjection cos curSpeed curDir heading = 0 ∧
      copernicusModeledSTW L cos pc = Except.ok (some 1.0057649, pc) ∧
      (1.4246 - 0.3555342 - 0.0633009 : Rat) = 1.0057649) := by
  have hAll : ∀ l ∈ requiredInputs L, ∃ v, pc.props l = some v := by
    intro l hl
    simp only [requiredInputs, List.mem_cons, List.mem_singleton, List.not_mem_nil,
      or_false] at hl
    rcases hl with h | h | h | h | h | h | h | h | h <;> rw [h]
    · exact ⟨_, hWindSpeed⟩
    · exact ⟨_, hWindDir⟩
    · exact ⟨_, hHeading⟩
    · exact ⟨_, hCurSpeed⟩
    · exact ⟨_, hCurDir⟩
    · exact ⟨_, hShaftSpeed⟩
    · exact ⟨_, hDraftAft⟩
    · exact ⟨_, hTrim⟩
    · exact ⟨_, hWaveHeight⟩
  simp only [Sample.HasError] at hErr
  have hEq := copernicusModeledSTW_eq L cos pc
  rw [any_absent_of_all L pc hAll, hErr, hWindSpeed, hWindDir, hHeading, hCurSpeed, hCurDir,
    hShaftSpeed, hDraftAft, hTrim, hWaveHeight] at hEq
  simp only [Bool.or_false, Option.getD_some, Bool.false_eq_true, if_false] at hEq
  rw [sample_err_eta pc hErr] at hEq
  refine ⟨?_, ?_⟩
  · rw [hEq]
    rfl
  · intro hc hh hwd hws hcs hss hda htr hwh
    subst hh hwd hws hcs hss hda htr hwh
    refine ⟨?_, ?_, ?_, ?_⟩
    · simp [ScalarProjection, hc]
    · simp [ScalarProjection]
    · rw [hEq]
      simp only [specModeledSTW, ScalarProjection, sub_zero, hc]
      norm_num
    · norm_num

theorem copernicusModeledSTW_model_witness :
    copernicusModeledSTW labelsA cosA sampleWind = Except.ok (some 1.0057649, sampleWind) :=
  ((copernicusModeledSTW_model labelsA cosA sampleWind 10 0 0 0 0 0 0 0 0 rfl rfl rfl rfl rfl rfl
    rfl rfl rfl rfl).2 (by norm_num [cosA]) rfl rfl rfl rfl rfl rfl rfl rfl).2.2.1

/-- C15: `copernicusModeledSTW` returns, and the sample after the call has the
properties, the units, the position, the ship and the timestamp of the sample
before it. -/
theorem copernicusModeledSTW_frame (L : Labels) (cos : Rat → Rat) (pc : Sample) :
    ∃ r pc2, copernicusModeledSTW L cos pc = Except.ok (r, pc2) ∧
      (∀ label, pc2.props label = pc.props label) ∧
      pc2.position = pc.position ∧ pc2.units = pc.units ∧
      pc2.ship = pc.ship ∧ pc2.time = pc.time :=
  ⟨_, _, copernicusModeledSTW_eq L cos pc, fun _ => rfl, rfl, rfl, rfl, rfl⟩

/-- C16: `copernicusModeledSTW` returns on every sample, an absent or a present
value, never a panic; the coefficient table has 8 elements and each index 0
to 7 is in range. -/
theorem copernicusModeledSTW_total (L : Labels) (cos : Rat → Rat) (pc : Sample) :
    (∃ r pc2, copernicusModeledSTW L cos pc = Except.ok (r, pc2) ∧
      (r = none ∨ ∃ v, r = some v)) ∧
    coeffs.length = 8 ∧
    ∀ i : Fin 8, ∃ x, index coeffs i.val = Except.ok x := by
  refine ⟨⟨_, _, copernicusModeledSTW_eq L cos pc, ?_⟩, rfl, ?_⟩
  · split
    · exact Or.inl rfl
    · exact Or.inr ⟨_, rfl⟩
  · intro i
    have h8 : coeffs.length = 8 := rfl
    unfold index
    rw [List.getElem?_eq_getElem (by omega)]
    exact ⟨_, rfl⟩

/-! ## Transform primitives -/

theorem SetZeroIfWithinEpsilon_of_lt (label : String) (epsilon : Rat) (pc : Sample) (v : Rat)
    (hv : pc.props label = some v) (hlt : |v| < epsilon) :
    SetZeroIfWithinEpsilon label epsilon pc = pc.SetNullableProperty label (some 0) := by
  simp [SetZeroIfWithinEpsilon, Sample.GetNullableProperty, hv, hlt]

theorem SetZeroIfWithinEpsilon_of_not_lt (label : String) (epsilon : Rat) (pc : Sample) (v : Rat)
    (hv : pc.props label = some v) (hlt : ¬ |v| < epsilon) :
    SetZeroIfWithinEpsilon label epsilon pc = pc := by
  simp [SetZeroIfWithinEpsilon, Sample.GetNullableProperty, hv, hlt]

theorem SetZeroIfWithinEpsilon_of_absent (label : String) (epsilon : Rat) (pc : Sample)
    (hv : pc.props label = none) :
    SetZeroIfWithinEpsilon label epsilon pc = pc := by
  simp [SetZeroIfWithinEpsilon, Sample.GetNullableProperty, hv]

theorem SetNullableProperty_same (pc : Sample) (label : String) (v : Option Rat) :
    (pc.SetNullableProperty label v).props label = v := by
  simp [Sample.SetNullableProperty]

theorem SetNullableProperty_other (pc : Sample) (label l : String) (v : Option Rat)
    (h : l ≠ label) : (pc.SetNullableProperty label v).props l = pc.props l := by
  simp [Sample.SetNullableProperty, h]

/-- C17: `SetZeroIfWithinEpsilon(label, epsilon)` writes exactly 0 to the
property when it is present with `|value| < epsilon`, strictly, and otherwise
returns the sample as it was (an absent property stays absent, a value with
`|value| >= epsilon` stays); no other property changes. With epsilon 0.001 the
value 0.0005 becomes 0 and the value 0.01 stays. -/
theorem SetZeroIfWithinEpsilon_spec (label : String) (epsilon : Rat) (pc : Sample) :
    (∀ v, pc.props label = some v → |v| < epsilon →
      SetZeroIfWithinEpsilon label epsilon pc = pc.SetNullableProperty label (some 0) ∧
      (SetZeroIfWithinEpsilon label epsilon pc).props label = some 0) ∧
    (∀ v, pc.props label = some v → ¬ |v| < epsilon →
      SetZeroIfWithinEpsilon label epsilon pc = pc) ∧
    (pc.props label = none → SetZeroIfWithinEpsilon label epsilon pc = pc) ∧
    (∀ l, l ≠ label → (SetZeroIfWithinEpsilon label epsilon pc).props l = pc.props l) ∧
    ((SetZeroIfWithinEpsilon label epsilon pc).props label = some 0 ↔
      (∃ v, pc.props label = some v ∧ |v| < epsilon) ∨ pc.props label = some 0) ∧
    (pc.props label = some 0.0005 →
      (SetZeroIfWithinEpsilon label 0.001 pc).props label = some 0) ∧
    (pc.props label = some 0.01 → SetZeroIfWithinEpsilon label 0.001 pc = pc) := by
  refine ⟨?_, ?_, ?_, ?_, ?_, ?_, ?_⟩
  · intro v hv hlt
    rw [SetZeroIfWithinEpsilon_of_lt label epsilon pc v hv hlt]
    exact ⟨rfl, SetNullableProperty_same pc label (some 0)⟩
  · intro v hv hlt
    exact SetZeroIfWithinEpsilon_of_not_lt label epsilon pc v hv hlt
  · intro hv
    exact SetZeroIfWithinEpsilon_of_absent label epsilon pc hv
  · intro l hl
    cases hv : pc.props label with
    | none => rw [SetZeroIfWithinEpsilon_of_absent label epsilon pc hv]
    | some v =>
      by_cases hlt : |v| < epsilon
      · rw [SetZeroIfWithinEpsilon_of_lt label epsilon pc v hv hlt]
        exact SetNullableProperty_other pc label l (some 0) hl
      · rw [SetZeroIfWithinEpsilon_of_not_lt label epsilon pc v hv hlt]
  · cases hv : pc.props label with
    | none =>
      rw [SetZeroIfWithinEpsilon_of_absent label epsilon pc hv, hv]
      simp
    | some v =>
      by_cases hlt : |v| < epsilon
      · rw [SetZeroIfWithinEpsilon_of_lt label epsilon pc v hv hlt,
          SetNullableProperty_same]
        simp [hlt]
      · rw [SetZeroIfWithinEpsilon_of_not_lt label epsilon pc v hv hlt, hv]
        simp [hlt]
  · intro hv
    rw [SetZeroIfWithinEpsilon_of_lt label 0.001 pc 0.0005 hv (by norm_num [abs_lt])]
    exact SetNullableProperty_same pc label (some 0)
  · intro hv
    exact SetZeroIfWithinEpsilon_of_not_lt label 0.001 pc 0.01 hv (by norm_num [abs_lt])

theorem SetZeroIfWithinEpsilon_spec_witness :
    (SetZeroIfWithinEpsilon "Shaft Speed" 0.001 sampleNoise).props "Shaft Speed" = some 0 ∧
      SetZeroIfWithinEpsilon "Shaft Power" 0.001 sampleNoise = sampleNoise ∧
      SetZeroIfWithinEpsilon "Trim" 0.001 sampleNoise = sampleNoise :=
  ⟨(SetZeroIfWithinEpsilon_spec "Shaft Speed" 0.001 sampleNoise).2.2.2.2.2.1 rfl,
    (SetZeroIfWithinEpsilon_spec "Shaft Power" 0.001 sampleNoise).2.2.2.2.2.2 rfl,
    (SetZeroIfWithinEpsilon_spec "Trim" 0.001 sampleNoise).2.2.1 rfl⟩

/-- C18: on a sample with the position `(lat, lon)`, `NegateLatitude` leaves
the position `(-lat, lon)`, from `(12.5, -70.2)` the position `(-12.5, -70.2)`,
and changes nothing else; a sample without position is returned as it was. -/
theorem NegateLatitude_spec (pc : Sample) :
    (∀ lat lon, pc.position = some ⟨lat, lon⟩ →
      (NegateLatitude pc).position = some ⟨-lat, lon⟩ ∧
      NegateLatitude pc = { pc with position := some ⟨-lat, lon⟩ }) ∧
    (pc.position = some ⟨12.5, -70.2⟩ →
      (NegateLatitude pc).position = some ⟨-12.5, -70.2⟩) ∧
    (pc.position = none → NegateLatitude pc = pc) := by
  have hPos : ∀ lat lon, pc.position = some ⟨lat, lon⟩ →
      NegateLatitude pc = { pc with position := some ⟨-lat, lon⟩ } := by
    intro lat lon h
    simp [NegateLatitude, Sample.Position, Sample.SetPosition, h]
  refine ⟨?_, ?_, ?_⟩
  · intro lat lon h
    rw [hPos lat lon h]
    exact ⟨rfl, rfl⟩
  · intro h
    rw [hPos _ _ h]
  · intro h
    simp [NegateLatitude, Sample.Position, h]

theorem NegateLatitude_spec_witness :
    (NegateLatitude sampleA).position = some ⟨-12.5, -70.2⟩ ∧
      NegateLatitude sampleWind = sampleWind :=
  ⟨(NegateLatitude_spec sampleA).2.1 rfl, (NegateLatitude_spec sampleWind).2.2 rfl⟩

theorem NegateLongitude_of_position (pc : Sample) (lat lon : Rat)
    (h : pc.position = some ⟨lat, lon⟩) :
    NegateLongitude pc = Except.ok { pc with position := some ⟨lon, -lon⟩ } := by
  simp [NegateLongitude, Sample.Position, Sample.SetPosition, h]

/-- C19 fails on the code: from the position `(12.5, -70.2)`, `NegateLongitude`
leaves `(-70.2, 70.2)`, the longitude in the place of the latitude, and not
`(12.5, 70.2)`. -/
theorem NegateLongitude_overwrites_latitude :
    ∃ pc, NegateLongitude sampleA = Except.ok pc ∧
      sampleA.position = some ⟨12.5, -70.2⟩ ∧
      pc.position = some ⟨-70.2, 70.2⟩ ∧
      pc.position ≠ some ⟨12.5, 70.2⟩ := by
  refine ⟨_, NegateLongitude_of_position sampleA 12.5 (-70.2) rfl, rfl, ?_, ?_⟩
  · simp
  · simp only [ne_eq, Option.some.injEq, Position.mk.injEq, neg_neg, not_and]
    norm_num

/-- C20: `NullAllFeatures` leaves every property absent; `NullNoonFeatures`
leaves absent every property whose name starts with `labels.Noon("")` and
keeps the value of every other property; neither touches the position. -/
theorem NullFeatures_spec (Noon : String → String) (pc : Sample) (label : String) :
    (NullAllFeatures pc).props label = none ∧
    (NullNoonFeatures Noon pc).props label =
      (if (Noon "").toList.isPrefixOf label.toList then none else pc.props label) ∧
    (NullAllFeatures pc).position = pc.position ∧
    (NullNoonFeatures Noon pc).position = pc.position :=
  ⟨rfl, rfl, rfl, rfl⟩

theorem NullFeatures_spec_witness :
    (NullNoonFeatures noonA sampleNoon).props "(Noon) Latitude" = none ∧
      (NullNoonFeatures noonA sampleNoon).props "Shaft Speed" = some 80 ∧
      (NullAllFeatures sampleNoon).props "Shaft Speed" = none :=
  ⟨(NullFeatures_spec noonA sampleNoon "(Noon) Latitude").2.1,
    (NullFeatures_spec noonA sampleNoon "Shaft Speed").2.1,
    (NullFeatures_spec noonA sampleNoon "Shaft Speed").1⟩

/-! ## Evaluation time and unbounded starts -/

/-- C21: the guard of a rule with a concrete `End` does not depend on the
evaluation time: on every sample, at any two instants `now1` and `now2`, it
returns the same sample state and the same trace, so its decision rests on the
sample's ship, timestamp and properties alone. -/
theorem guard_now_independent (cfunc : CleanupFunc) (now1 now2 : Time) (pc : PropertyCalc)
    (hEnd : cfunc.End.IsZero = false) :
    cfunc.guard now1 pc = cfunc.guard now2 pc ∧
    (cfunc.guard now1 pc = cfunc.applyFuncs pc ↔ cfunc.guard now2 pc = cfunc.applyFuncs pc) := by
  have h : cfunc.guard now1 pc = cfunc.guard now2 pc := by
    by_cases hShip : pc.GetShip.ID = cfunc.ShipID
    · rw [guard_of_ship_eq cfunc now1 pc hShip, guard_of_ship_eq cfunc now2 pc hShip,
        endTime_of_concrete cfunc now1 hEnd, endTime_of_concrete cfunc now2 hEnd]
    · rw [guard_of_ship_ne cfunc now1 pc hShip, guard_of_ship_ne cfunc now2 pc hShip]
  exact ⟨h, by rw [h]⟩

theorem guard_now_independent_witness :
    ruleA.guard ⟨151⟩ ⟨sampleA, true⟩ = ruleA.guard ⟨100000⟩ ⟨sampleA, true⟩ :=
  (guard_now_independent ruleA ⟨151⟩ ⟨100000⟩ ⟨sampleA, true⟩ rfl).1

/-- C24: for a rule whose `Start` is the zero instant and a sample of its ship
timestamped after the zero instant, the guard matches exactly when the
timestamp is strictly earlier than `End`, for a concrete `End`, and exactly
when it is strictly earlier than `now`, for an `End` that is the zero instant
too; otherwise the sample is returned unchanged. -/
theorem guard_unbounded_start (cfunc : CleanupFunc) (now : Time) (pc : PropertyCalc)
    (hStart : cfunc.Start.IsZero = true) (hShip : pc.GetShip.ID = cfunc.ShipID)
    (hTime : Time.zero.ns < pc.Time.ns) :
    (cfunc.End.IsZero = false →
      (cfunc.guard now pc = cfunc.applyFuncs pc ↔ pc.Time.ns < cfunc.End.ns) ∧
      (¬ pc.Time.ns < cfunc.End.ns → cfunc.guard now pc = (pc, []))) ∧
    (cfunc.End.IsZero = true →
      (cfunc.guard now pc = cfunc.applyFuncs pc ↔ pc.Time.ns < now.ns) ∧
      (¬ pc.Time.ns < now.ns → cfunc.guard now pc = (pc, []))) := by
  have hS : cfunc.Start.ns = 0 := by simpa [Time.IsZero] using hStart
  have hT : cfunc.Start.ns < pc.Time.ns := by
    rw [hS]
    exact hTime
  have hm := guard_matched_iff cfunc now pc hShip
  have hu := guard_unmatched cfunc now pc hShip
  constructor
  · intro hEnd
    rw [endTime_of_concrete cfunc now hEnd] at hm hu
    exact ⟨hm.trans ⟨fun h => h.2, fun h => ⟨hT, h⟩⟩, fun h => hu fun h2 => h h2.2⟩
  · intro hEnd
    rw [endTime_of_zero cfunc now hEnd] at hm hu
    exact ⟨hm.trans ⟨fun h => h.2, fun h => ⟨hT, h⟩⟩, fun h => hu fun h2 => h h2.2⟩

theorem guard_unbounded_start_witness :
    ruleNoStart.guard ⟨500⟩ ⟨sampleA, true⟩ = ruleNoStart.applyFuncs ⟨sampleA, true⟩ ∧
      ruleUnbounded.guard ⟨150⟩ ⟨sampleA, true⟩ = (⟨sampleA, true⟩, []) :=
  ⟨(((guard_unbounded_start ruleNoStart ⟨500⟩ ⟨sampleA, true⟩ rfl rfl
      (by decide)).1 rfl).1).mpr (by decide),
    ((guard_unbounded_start ruleUnbounded ⟨150⟩ ⟨sampleA, true⟩ rfl rfl
      (by decide)).2 rfl).2 (by decide)⟩

/-! ## Position primitives -/

/-- C23 fails on the code: on a sample without position `NegateLongitude`
dereferences the nil position and panics, where `NegateLatitude` returns the
sample unchanged. -/
theorem NegateLongitude_panics_without_position :
    sampleWind.position = none ∧
      NegateLongitude sampleWind =
        Except.error "invalid memory address or nil pointer dereference" ∧
      NegateLatitude sampleWind = sampleWind :=
  ⟨rfl, rfl, rfl⟩

theorem OverrideLatLonSign_of_present (pc : Sample) (noonLat noonLon lat lon : Rat)
    (hLat : pc.props "(Noon) Latitude" = some noonLat)
    (hLon : pc.props "(Noon) Longitude" = some noonLon)
    (hPos : pc.position = some ⟨lat, lon⟩) :
    OverrideLatLonSign pc =
      { pc with position := some ⟨if noonLat < 0 ∧ lat > 0 then -lat else lat,
                  if noonLon < 0 ∧ lon > 0 then -lon else lon⟩ } := by
  simp only [OverrideLatLonSign, Sample.GetNullableProperty, Sample.Position, hLat, hLon, hPos,
    Sample.SetPosition, mul_neg, mul_one]

theorem OverrideLatLonSign_of_absent (pc : Sample)
    (h : pc.props "(Noon) Latitude" = none ∨ pc.props "(Noon) Longitude" = none ∨
      pc.position = none) : OverrideLatLonSign pc = pc := by
  unfold OverrideLatLonSign Sample.GetNullableProperty Sample.Position
  rcases h with h | h | h
  · rw [h]
  · rw [h]
    cases pc.props "(Noon) Latitude" <;> rfl
  · rw [h]
    cases pc.props "(Noon) Latitude" <;> cases pc.props "(Noon) Longitude" <;> rfl

theorem abs_flip (c x : Rat) :
    |if c < 0 ∧ x > 0 then -x else x| = |x| ∧ (if c < 0 ∧ x > 0 then -x else x) ≤ x ∧
      (x ≤ 0 → (if c < 0 ∧ x > 0 then -x else x) = x) := by
  by_cases h : c < 0 ∧ x > 0
  · rw [if_pos h]
    refine ⟨abs_neg x, by linarith [h.2], fun hx => absurd h.2 (not_lt.mpr hx)⟩
  · rw [if_neg h]
    exact ⟨rfl, le_refl x, fun _ => rfl⟩

/-- C25: `OverrideLatLonSign` returns the sample unchanged when the noon
latitude or the noon longitude is absent or the sample has no position;
otherwise it changes the position only, to `(lat2, lon2)` with `lat2 = -lat`
when `noonLat < 0` and `lat > 0`, else `lat`, and `lon2 = -lon` when
`noonLon < 0` and `lon > 0`, else `lon`. So `|lat2| = |lat|`, `|lon2| = |lon|`,
and no coordinate grows: one that is not positive stays as it is. -/
theorem OverrideLatLonSign_spec (pc : Sample) :
    ((pc.props "(Noon) Latitude" = none ∨ pc.props "(Noon) Longitude" = none ∨
      pc.position = none) → OverrideLatLonSign pc = pc) ∧
    (∀ noonLat noonLon lat lon, pc.props "(Noon) Latitude" = some noonLat →
      pc.props "(Noon) Longitude" = some noonLon → pc.position = some ⟨lat, lon⟩ →
      ∃ lat2 lon2, OverrideLatLonSign pc = { pc with position := some ⟨lat2, lon2⟩ } ∧
        lat2 = (if noonLat < 0 ∧ lat > 0 then -lat else lat) ∧
        lon2 = (if noonLon < 0 ∧ lon > 0 then -lon else lon) ∧
        |lat2| = |lat| ∧ |lon2| = |lon| ∧ lat2 ≤ lat ∧ lon2 ≤ lon ∧
        (lat ≤ 0 → lat2 = lat) ∧ (lon ≤ 0 → lon2 = lon)) := by
  refine ⟨OverrideLatLonSign_of_absent pc, ?_⟩
  intro noonLat noonLon lat lon hLat hLon hPos
  have h1 := abs_flip noonLat lat
  have h2 := abs_flip noonLon lon
  exact ⟨_, _, OverrideLatLonSign_of_present pc noonLat noonLon lat lon hLat hLon hPos, rfl, rfl,
    h1.1, h2.1, h1.2.1, h2.2.1, h1.2.2, h2.2.2⟩

theorem OverrideLatLonSign_spec_witness :
    OverrideLatLonSign sampleA = sampleA ∧
      ∃ lat2 lon2, OverrideLatLonSign sampleSouth =
        { sampleSouth with position := some ⟨lat2, lon2⟩ } ∧ lat2 = -12.5 ∧ lon2 = -70.2 := by
  refine ⟨(OverrideLatLonSign_spec sampleA).1 (Or.inl rfl), ?_⟩
  obtain ⟨lat2, lon2, hEq, hLat, hLon, _⟩ :=
    (OverrideLatLonSign_spec sampleSouth).2 (-12.4) (-70.1) 12.5 (-70.2) rfl rfl rfl
  refine ⟨lat2, lon2, hEq, ?_, ?_⟩
  · rw [hLat]
    norm_num
  · rw [hLon]
    norm_num

/-- C26: `RemoveBadGPS` leaves the sample without position, latitude and
longitude cleared together, and changes nothing else: every named property and
every unit tag is the one before the call. -/
theorem RemoveBadGPS_spec (pc : Sample) :
    (RemoveBadGPS pc).position = none ∧
    (RemoveBadGPS pc).Position = none ∧
    (∀ label, (RemoveBadGPS pc).props label = pc.props label) ∧
    (∀ label, (RemoveBadGPS pc).units label = pc.units label) ∧
    RemoveBadGPS pc = { pc with position := none } :=
  ⟨rfl, rfl, fun _ => rfl, fun _ => rfl, rfl⟩

/-! ## Generator power -/

theorem OverrideChevronGeneratorPower_eq (kiloWatts : String) (pc : Sample) :
    OverrideChevronGeneratorPower kiloWatts pc =
      OverrideChevronGeneratorPower.body kiloWatts 4
        (OverrideChevronGeneratorPower.body kiloWatts 3
          (OverrideChevronGeneratorPower.body kiloWatts 2
            (OverrideChevronGeneratorPower.body kiloWatts 1 pc))) := by
  unfold OverrideChevronGeneratorPower
  rw [OverrideChevronGeneratorPower.loop, if_pos (by decide)]
  rw [OverrideChevronGeneratorPower.loop, if_pos (by decide)]
  rw [OverrideChevronGeneratorPower.loop, if_pos (by decide)]
  rw [OverrideChevronGeneratorPower.loop, if_pos (by decide)]
  rw [OverrideChevronGeneratorPower.loop, if_neg (by decide)]

theorem body_props (kiloWatts : String) (i : Nat) (pc : Sample) (l : String) :
    (OverrideChevronGeneratorPower.body kiloWatts i pc).props l =
      if l = "Generator " ++ toString i ++ " Power" ∧
          (pc.props ("M/G " ++ toString i ++ " Power")).isSome = true
      then pc.props ("M/G " ++ toString i ++ " Power") else pc.props l := by
  unfold OverrideChevronGeneratorPower.body Sample.GetNullableProperty
  cases h : pc.props ("M/G " ++ toString i ++ " Power") <;>
    simp [Sample.SetPropertyWithUnit]

theorem body_units (kiloWatts : String) (i : Nat) (pc : Sample) (l : String) :
    (OverrideChevronGeneratorPower.body kiloWatts i pc).units l =
      if l = "Generator " ++ toString i ++ " Power" ∧
          (pc.props ("M/G " ++ toString i ++ " Power")).isSome = true
      then some kiloWatts else pc.units l := by
  unfold OverrideChevronGeneratorPower.body Sample.GetNullableProperty
  cases h : pc.props ("M/G " ++ toString i ++ " Power") <;>
    simp [Sample.SetPropertyWithUnit]

theorem body_position (kiloWatts : String) (i : Nat) (pc : Sample) :
    (OverrideChevronGeneratorPower.body kiloWatts i pc).position = pc.position := by
  unfold OverrideChevronGeneratorPower.body Sample.GetNullableProperty
  cases h : pc.props ("M/G " ++ toString i ++ " Power") <;> rfl

theorem mg_ne_gen (i j : Nat) (hi : 1 ≤ i ∧ i ≤ 4) (hj : 1 ≤ j ∧ j ≤ 4) :
    "M/G " ++ toString i ++ " Power" ≠ "Generator " ++ toString j ++ " Power" := by
  obtain ⟨h1, h2⟩ := hi
  obtain ⟨h3, h4⟩ := hj
  interval_cases i <;> interval_cases j <;> decide

theorem gen_ne_gen (i j : Nat) (hi : 1 ≤ i ∧ i ≤ 4) (hj : 1 ≤ j ∧ j ≤ 4) (hij : i ≠ j) :
    "Generator " ++ toString i ++ " Power" ≠ "Generator " ++ toString j ++ " Power" := by
  obtain ⟨h1, h2⟩ := hi
  obtain ⟨h3, h4⟩ := hj
  interval_cases i <;> interval_cases j <;> first | exact absurd rfl hij | decide

/-- C27: `OverrideChevronGeneratorPower` runs the body of its loop for the
indices 1, 2, 3, 4 and stops. For each of them, a present `M/G i Power` with
value `v` leaves `Generator i Power` with the value `v` and the kilowatt unit,
an absent one leaves `Generator i Power` as it was; a property that is not one
of `Generator 1 Power` to `Generator 4 Power`, such as `Generator 5 Power`, and
the position keep their state. -/
theorem OverrideChevronGeneratorPower_spec (kiloWatts : String) (pc : Sample) :
    OverrideChevronGeneratorPower kiloWatts pc =
      OverrideChevronGeneratorPower.body kiloWatts 4
        (OverrideChevronGeneratorPower.body kiloWatts 3
          (OverrideChevronGeneratorPower.body kiloWatts 2
            (OverrideChevronGeneratorPower.body kiloWatts 1 pc))) ∧
    (∀ i v, 1 ≤ i → i ≤ 4 → pc.props ("M/G " ++ toString i ++ " Power") = some v →
      (OverrideChevronGeneratorPower kiloWatts pc).props
          ("Generator " ++ toString i ++ " Power") = some v ∧
        (OverrideChevronGeneratorPower kiloWatts pc).units
          ("Generator " ++ toString i ++ " Power") = some kiloWatts) ∧
    (∀ i, 1 ≤ i → i ≤ 4 → pc.props ("M/G " ++ toString i ++ " Power") = none →
      (OverrideChevronGeneratorPower kiloWatts pc).props
          ("Generator " ++ toString i ++ " Power") =
            pc.props ("Generator " ++ toString i ++ " Power") ∧
        (OverrideChevronGeneratorPower kiloWatts pc).units
          ("Generator " ++ toString i ++ " Power") =
            pc.units ("Generator " ++ toString i ++ " Power")) ∧
    (∀ l, (∀ i, 1 ≤ i → i ≤ 4 → l ≠ "Generator " ++ toString i ++ " Power") →
      (OverrideChevronGeneratorPower kiloWatts pc).props l = pc.props l ∧
        (OverrideChevronGeneratorPower kiloWatts pc).units l = pc.units l) ∧
    (OverrideChevronGeneratorPower kiloWatts pc).props "Generator 5 Power" =
      pc.props "Generator 5 Power" ∧
    (OverrideChevronGeneratorPower kiloWatts pc).position = pc.position := by
  have m := fun a b ha hb => mg_ne_gen a b ha hb
  have g := fun a b ha hb hab => gen_ne_gen a b ha hb hab
  have hOther : ∀ l, (∀ i, 1 ≤ i → i ≤ 4 → l ≠ "Generator " ++ toString i ++ " Power") →
      (OverrideChevronGeneratorPower kiloWatts pc).props l = pc.props l ∧
        (OverrideChevronGeneratorPower kiloWatts pc).units l = pc.units l := by
    intro l hl
    rw [OverrideChevronGeneratorPower_eq]
    have l1 := hl 1 (by decide) (by decide)
    have l2 := hl 2 (by decide) (by decide)
    have l3 := hl 3 (by decide) (by decide)
    have l4 := hl 4 (by decide) (by decide)
    simp [body_props, body_units, l1, l2, l3, l4]
  refine ⟨OverrideChevronGeneratorPower_eq kiloWatts pc, ?_, ?_, hOther, ?_, ?_⟩
  · intro i v h1 h4 hv
    rw [OverrideChevronGeneratorPower_eq]
    interval_cases i <;> simp [body_props, body_units, hv, m, g]
  · intro i h1 h4 hv
    rw [OverrideChevronGeneratorPower_eq]
    interval_cases i <;> simp [body_props, body_units, hv, m, g]
  · refine (hOther "Generator 5 Power" ?_).1
    intro i h1 h4
    interval_cases i <;> decide
  · rw [OverrideChevronGeneratorPower_eq]
    simp [body_position]

theorem OverrideChevronGeneratorPower_spec_witness :
    (OverrideChevronGeneratorPower "kW" sampleGenerators).props "Generator 2 Power" = some 450 ∧
      (OverrideChevronGeneratorPower "kW" sampleGenerators).units "Generator 2 Power" =
        some "kW" ∧
      (OverrideChevronGeneratorPower "kW" sampleGenerators).props "Generator 3 Power" =
        some 7 ∧
      (OverrideChevronGeneratorPower "kW" sampleGenerators).props "M/G 2 Power" = some 450 :=
  ⟨((OverrideChevronGeneratorPower_spec "kW" sampleGenerators).2.1 2 450 (by decide)
      (by decide) rfl).1,
    ((OverrideChevronGeneratorPower_spec "kW" sampleGenerators).2.1 2 450 (by decide)
      (by decide) rfl).2,
    ((OverrideChevronGeneratorPower_spec "kW" sampleGenerators).2.2.1 3 (by decide)
      (by decide) rfl).1,
    ((OverrideChevronGeneratorPower_spec "kW" sampleGenerators).2.2.2.1 "M/G 2 Power"
      (by intro i h1 h4; interval_cases i <;> decide)).1⟩

/-! ## The shipped catalog -/

theorem cleanupFuncs_length (X : Externals) : (cleanupFuncs X).length = 116 := rfl

theorem cleanupFuncs_all_issues (X : Externals) :
    ((cleanupFuncs X).all fun c => c.Issue != "") = true := rfl

theorem cleanupFuncs_all_stages (X : Externals) :
    ((cleanupFuncs X).all fun c =>
      c.Stage == PreVesselAnatomyStage || c.Stage == PostVesselAnatomyStage) = true := rfl

theorem cleanupFuncs_issue (X : Externals) (c : CleanupFunc) (hc : c ∈ cleanupFuncs X) :
    c.Issue ≠ "" := by
  have h := List.all_eq_true.mp (cleanupFuncs_all_issues X) c hc
  simpa using h

theorem cleanupFuncs_stage_cases (X : Externals) (c : CleanupFunc) (hc : c ∈ cleanupFuncs X) :
    c.Stage = PreVesselAnatomyStage ∨ c.Stage = PostVesselAnatomyStage := by
  have h := List.all_eq_true.mp (cleanupFuncs_all_stages X) c hc
  simpa using h

theorem CleanupFuncs_catalog (X : Externals) (stage : Stage) (onlyUnconditional : Bool) :
    CleanupFuncs (cleanupFuncs X) stage onlyUnconditional =
      Except.ok (((cleanupFuncs X).filter (selected stage onlyUnconditional)).map
        CleanupFunc.guard) :=
  CleanupFuncs_of_issues (cleanupFuncs X) stage onlyUnconditional
    fun c hc _ => cleanupFuncs_issue X c hc

theorem CleanupFuncs_catalog_tail (X : Externals) (stage : Stage) (onlyUnconditional : Bool) :
    CleanupFuncs ((cleanupFuncs X).drop 4) stage onlyUnconditional =
      Except.ok ((((cleanupFuncs X).drop 4).filter (selected stage onlyUnconditional)).map
        CleanupFunc.guard) :=
  CleanupFuncs_of_issues ((cleanupFuncs X).drop 4) stage onlyUnconditional
    fun c hc _ => cleanupFuncs_issue X c (List.mem_of_mem_drop hc)

/-- C28: the shipped catalog has 116 rules, each with a non-empty `Issue`, so
`CleanupFuncs` on it returns a guard sequence for every stage and either flag,
whatever the ship constants, labels and transforms of the other packages
are. -/
theorem cleanupFuncs_never_aborts (X : Externals) (stage : Stage) (onlyUnconditional : Bool) :
    (cleanupFuncs X).length = 116 ∧
    (∀ c ∈ cleanupFuncs X, c.Issue ≠ "") ∧
    ∃ gs, CleanupFuncs (cleanupFuncs X) stage onlyUnconditional = Except.ok gs :=
  ⟨cleanupFuncs_length X, cleanupFuncs_issue X, _, CleanupFuncs_catalog X stage onlyUnconditional⟩

theorem cleanupFuncs_never_aborts_witness :
    ∃ gs, CleanupFuncs (cleanupFuncs externalsA) PreVesselAnatomyStage true = Except.ok gs :=
  (cleanupFuncs_never_aborts externalsA PreVesselAnatomyStage true).2.2

/-- C29: every rule of the shipped catalog belongs to the pre stage or to the
post stage; `CleanupFuncs` without the flag returns 76 guards for the pre
stage and 40 for the post stage, 116 together, the length of the catalog; for
any other stage it returns the empty sequence. -/
theorem cleanupFuncs_stage_partition (X : Externals) :
    (∀ c ∈ cleanupFuncs X,
      c.Stage = PreVesselAnatomyStage ∨ c.Stage = PostVesselAnatomyStage) ∧
    (∃ gs, CleanupFuncs (cleanupFuncs X) PreVesselAnatomyStage false = Except.ok gs ∧
      gs.length = 76) ∧
    (∃ gs, CleanupFuncs (cleanupFuncs X) PostVesselAnatomyStage false = Except.ok gs ∧
      gs.length = 40) ∧
    76 + 40 = (cleanupFuncs X).length ∧
    (cleanupFuncs X).length = 116 ∧
    (∀ (stage : Stage) (onlyUnconditional : Bool), stage ≠ PreVesselAnatomyStage →
      stage ≠ PostVesselAnatomyStage →
      CleanupFuncs (cleanupFuncs X) stage onlyUnconditional = Except.ok []) := by
  refine ⟨cleanupFuncs_stage_cases X, ⟨_, CleanupFuncs_catalog X _ _, ?_⟩,
    ⟨_, CleanupFuncs_catalog X _ _, ?_⟩, rfl, rfl, ?_⟩
  · rw [List.length_map]
    rfl
  · rw [List.length_map]
    rfl
  · intro stage onlyUnconditional hPre hPost
    rw [CleanupFuncs_catalog]
    have hNil : (cleanupFuncs X).filter (selected stage onlyUnconditional) = [] := by
      rw [List.filter_eq_nil_iff]
      intro c hc hsel
      have hs := selected_stage stage onlyUnconditional c hsel
      rcases cleanupFuncs_stage_cases X c hc with h | h
      · exact hPre (hs.symm.trans h)
      · exact hPost (hs.symm.trans h)
    rw [hNil]
    rfl

theorem cleanupFuncs_stage_partition_witness :
    CleanupFuncs (cleanupFuncs externalsA) "vessel-anatomy" false = Except.ok [] :=
  (cleanupFuncs_stage_partition externalsA).2.2.2.2.2 "vessel-anatomy" false
    (by decide) (by decide)

/-- C30: in the shipped catalog the first four rules, all of the pre stage,
are the rules with `Unconditional = false`. So for the post stage the flag
selects the rules it selects without the flag, 40 guards, and for the pre
stage it selects the pre rules after the first four, 72 of the 76 guards. -/
theorem cleanupFuncs_conditional_rules (X : Externals) :
    (∀ c ∈ (cleanupFuncs X).take 4,
      c.Unconditional = false ∧ c.Stage = PreVesselAnatomyStage) ∧
    (∀ c ∈ (cleanupFuncs X).drop 4, c.Unconditional = true) ∧
    (cleanupFuncs X).filter (selected PostVesselAnatomyStage true) =
      (cleanupFuncs X).filter (selected PostVesselAnatomyStage false) ∧
    CleanupFuncs (cleanupFuncs X) PostVesselAnatomyStage true =
      CleanupFuncs (cleanupFuncs X) PostVesselAnatomyStage false ∧
    (∃ gs, CleanupFuncs (cleanupFuncs X) PostVesselAnatomyStage true = Except.ok gs ∧
      gs.length = 40) ∧
    (cleanupFuncs X).filter (selected PreVesselAnatomyStage true) =
      ((cleanupFuncs X).drop 4).filter (selected PreVesselAnatomyStage false) ∧
    CleanupFuncs (cleanupFuncs X) PreVesselAnatomyStage true =
      CleanupFuncs ((cleanupFuncs X).drop 4) PreVesselAnatomyStage false ∧
    (∃ gs, CleanupFuncs (cleanupFuncs X) PreVesselAnatomyStage true = Except.ok gs ∧
      gs.length = 72) ∧
    (∃ gs, CleanupFuncs (cleanupFuncs X) PreVesselAnatomyStage false = Except.ok gs ∧
      gs.length = 76) := by
  have hTake : (((cleanupFuncs X).take 4).all fun c =>
      !c.Unconditional && c.Stage == PreVesselAnatomyStage) = true := rfl
  have hDrop : (((cleanupFuncs X).drop 4).all fun c => c.Unconditional) = true := rfl
  have hPost : (cleanupFuncs X).filter (selected PostVesselAnatomyStage true) =
      (cleanupFuncs X).filter (selected PostVesselAnatomyStage false) := rfl
  have hPre : (cleanupFuncs X).filter (selected PreVesselAnatomyStage true) =
      ((cleanupFuncs X).drop 4).filter (selected PreVesselAnatomyStage false) := rfl
  refine ⟨?_, ?_, hPost, ?_, ⟨_, CleanupFuncs_catalog X _ _, ?_⟩, hPre, ?_,
    ⟨_, CleanupFuncs_catalog X _ _, ?_⟩, ⟨_, CleanupFuncs_catalog X _ _, ?_⟩⟩
  · intro c hc
    have h := List.all_eq_true.mp hTake c hc
    simpa using h
  · intro c hc
    exact List.all_eq_true.mp hDrop c hc
  · rw [CleanupFuncs_catalog, CleanupFuncs_catalog, hPost]
  · rw [List.length_map]
    rfl
  · rw [CleanupFuncs_catalog, CleanupFuncs_catalog_tail, hPre]
  · rw [List.length_map]
    rfl
  · rw [List.length_map]
    rfl

theorem cleanupFuncs_conditional_rules_witness :
    (∃ gs, CleanupFuncs (cleanupFuncs externalsA) PreVesselAnatomyStage true = Except.ok gs ∧
      gs.length = 72) ∧
    ∀ c ∈ (cleanupFuncs externalsA).drop 4, c.Unconditional = true :=
  ⟨(cleanupFuncs_conditional_rules externalsA).2.2.2.2.2.2.2.1,
    (cleanupFuncs_conditional_rules externalsA).2.1⟩

/-! ## The rules for issue NAUT-1860 -/

theorem guard_calc_only (cfunc : CleanupFunc) (now : Time) (pc : PropertyCalc)
    (f : Sample → Sample) (hf : cfunc.CalcFunc = some f) (hg : cfunc.CleanFunc = none)
    (hShip : pc.GetShip.ID = cfunc.ShipID)
    (hWin : cfunc.Start.ns < pc.Time.ns ∧ pc.Time.ns < (cfunc.endTime now).ns) :
    (cfunc.guard now pc).1 = ⟨f pc.sample, pc.bulkClear⟩ := by
  rw [guard_of_window cfunc now pc hShip hWin]
  simp [CleanupFunc.applyFuncs, CleanupFunc.runCalc, CleanupFunc.runClean, hf, hg]

theorem copernicusModeledSTW_congr (L : Labels) (cos : Rat → Rat) (pc pc1 : Sample)
    (hErr : pc1.err = pc.err) (hProps : ∀ l ∈ requiredInputs L, pc1.props l = pc.props l)
    (m : Rat) (pc2 : Sample) (hEst : copernicusModeledSTW L cos pc = Except.ok (some m, pc2)) :
    copernicusModeledSTW L cos pc1 = Except.ok (some m, pc1) := by
  rw [copernicusModeledSTW_eq] at hEst ⊢
  have hAny : ((requiredInputs L).any fun l => (pc1.props l).isNone) =
      ((requiredInputs L).any fun l => (pc.props l).isNone) := by
    rw [Bool.eq_iff_iff, List.any_eq_true, List.any_eq_true]
    constructor
    · rintro ⟨l, hl, h⟩
      exact ⟨l, hl, by rw [← hProps l hl]; exact h⟩
    · rintro ⟨l, hl, h⟩
      exact ⟨l, hl, by rw [hProps l hl]; exact h⟩
  have h := fun l hl => hProps l hl
  simp only [requiredInputs, List.mem_cons, List.mem_singleton, List.not_mem_nil, or_false,
    forall_eq_or_imp, forall_eq] at h
  obtain ⟨h1, h2, h3, h4, h5, h6, h7, h8, h9⟩ := h
  rw [hAny, hErr, h1, h2, h3, h4, h5, h6, h7, h8, h9]
  split at hEst
  · simp at hEst
  · rename_i hc
    simp only [Except.ok.injEq, Prod.mk.injEq, Option.some.injEq] at hEst
    rw [if_neg hc, hEst.1]
    have hc2 : (pc.err || (requiredInputs L).any fun l => (pc.props l).isNone) = false := by
      simpa using hc
    rw [hc2]
    have : pc1.err = false := by
      rw [hErr]
      cases hpe : pc.err
      · rfl
      · rw [hpe] at hc2
        simp at hc2
    rw [sample_err_eta pc1 this]

theorem SetProperty_props_of_ne (pc : Sample) (label l : String) (v : Rat) (h : l ≠ label) :
    (pc.SetProperty label v).props l = pc.props l := by
  simp [Sample.SetProperty, h]

theorem SetProperty_props_same (pc : Sample) (label : String) (v : Rat) :
    (pc.SetProperty label v).props label = some v := by
  simp [Sample.SetProperty]

theorem calcFuncSensorSTW_of_present (L : Labels) (cos : Rat → Rat) (pc pc2 : Sample)
    (stw m : Rat) (hStw : pc.props L.SpeedThroughWater = some stw)
    (hEst : copernicusModeledSTW L cos pc = Except.ok (some m, pc2))
    (hd : L.SensorSTW ∉ requiredInputs L) :
    calcFuncSensorSTW L cos pc =
      (pc.SetProperty L.SensorSTW stw).SetProperty L.ModeledSTW m := by
  have hRead : pc.GetProperty L.SpeedThroughWater = (stw, pc) := by
    simp [Sample.GetProperty, hStw]
  have hEst1 : copernicusModeledSTW L cos (pc.SetProperty L.SensorSTW stw) =
      Except.ok (some m, pc.SetProperty L.SensorSTW stw) := by
    refine copernicusModeledSTW_congr L cos pc (pc.SetProperty L.SensorSTW stw) rfl ?_ m pc2
      hEst
    intro l hl
    apply SetProperty_props_of_ne
    intro h
    exact hd (h ▸ hl)
  unfold calcFuncSensorSTW
  simp only [hRead, hEst1]

theorem calcFuncModeledSTW_of_present (L : Labels) (pc : Sample) (p : Rat)
    (h : pc.props L.ModeledSTW = some p) :
    calcFuncModeledSTW L pc = pc.SetProperty L.SpeedThroughWater p := by
  simp [calcFuncModeledSTW, Sample.GetProperty, h]

theorem calcFuncSensorSTW_props_other (L : Labels) (cos : Rat → Rat) (pc : Sample)
    (l : String) (h1 : l ≠ L.SensorSTW) (h2 : l ≠ L.ModeledSTW) :
    (calcFuncSensorSTW L cos pc).props l = pc.props l := by
  unfold calcFuncSensorSTW
  simp only [copernicusModeledSTW_eq, GetProperty_fst, GetProperty_snd]
  split
  · rename_i m pc2 hEq
    simp only [Except.ok.injEq, Prod.mk.injEq] at hEq
    rw [← hEq.2]
    simp [Sample.SetProperty, h1, h2]
  · rename_i pc2 hEq
    simp only [Except.ok.injEq, Prod.mk.injEq] at hEq
    rw [← hEq.2]
    simp [Sample.SetProperty, h1]
  · rename_i e hEq
    cases hEq

theorem sampleNoStw_estimate :
    copernicusModeledSTW labelsA cosA sampleNoStw = Except.ok (some 1.0057649, sampleNoStw) := by
  have hc : (sampleNoStw.err ||
      (requiredInputs labelsA).any fun l => (sampleNoStw.props l).isNone) = false := rfl
  have h := copernicusModeledSTW_eq labelsA cosA sampleNoStw
  rw [hc] at h
  simp only [Bool.false_eq_true, if_false] at h
  rw [h]
  have hv : specModeledSTW ((sampleNoStw.props labelsA.ShaftSpeed).getD 0)
      ((sampleNoStw.props labelsA.DraftAft).getD 0) ((sampleNoStw.props labelsA.Trim).getD 0)
      ((sampleNoStw.props labelsA.WS_SigWaveHeight).getD 0)
      (ScalarProjection cosA ((sampleNoStw.props labelsA.WS_SeaCurSpeed).getD 0)
        ((sampleNoStw.props labelsA.WS_SeaCurDir).getD 0)
        ((sampleNoStw.props labelsA.Heading).getD 0))
      (ScalarProjection cosA ((sampleNoStw.props labelsA.WS_TrueWindSpeed).getD 0)
        ((sampleNoStw.props labelsA.WS_TrueWindDir).getD 0)
        ((sampleNoStw.props labelsA.Heading).getD 0)) = 1.0057649 := by
    have e1 : sampleNoStw.props labelsA.ShaftSpeed = some 0 := rfl
    have e2 : sampleNoStw.props labelsA.DraftAft = some 0 := rfl
    have e3 : sampleNoStw.props labelsA.Trim = some 0 := rfl
    have e4 : sampleNoStw.props labelsA.WS_SigWaveHeight = some 0 := rfl
    have e5 : sampleNoStw.props labelsA.WS_SeaCurSpeed = some 0 := rfl
    have e6 : sampleNoStw.props labelsA.WS_SeaCurDir = some 0 := rfl
    have e7 : sampleNoStw.props labelsA.Heading = some 0 := rfl
    have e8 : sampleNoStw.props labelsA.WS_TrueWindSpeed = some 10 := rfl
    have e9 : sampleNoStw.props labelsA.WS_TrueWindDir = some 0 := rfl
    rw [e1, e2, e3, e4, e5, e6, e7, e8, e9]
    simp only [Option.getD_some, specModeledSTW, ScalarProjection, cosA]
    norm_num
  rw [hv]
  rfl

/-- C22, as stated, fails: on a sample of ship 1 timestamped 2019-01-01, before
`now`, without `SpeedThroughWater`, on which the estimator returns the present
value 1.0057649, the two guards in catalog order leave `ModeledSTW` at its
earlier value 11 and `SensorSTW` at 0: the read of the absent
`SpeedThroughWater` sets the error state, so the estimator called by the rule
returns absent. -/
theorem naut1860_order_without_stw :
    sampleNoStw.ship.ID = 1 ∧
    (parseTime 2018 3 1 0 0 0).ns < sampleNoStw.time.ns ∧
    sampleNoStw.time.ns < (parseTime 2020 1 1 0 0 0).ns ∧
    sampleNoStw.props "Speed Through Water" = none ∧
    copernicusModeledSTW labelsA cosA sampleNoStw = Except.ok (some 1.0057649, sampleNoStw) ∧
    ((ruleModeledSTW externalsA).guard (parseTime 2020 1 1 0 0 0)
      ((ruleSensorSTW externalsA).guard (parseTime 2020 1 1 0 0 0)
        ⟨sampleNoStw, false⟩).1).1.sample.props "Modeled STW" = some 11 ∧
    ((ruleModeledSTW externalsA).guard (parseTime 2020 1 1 0 0 0)
      ((ruleSensorSTW externalsA).guard (parseTime 2020 1 1 0 0 0)
        ⟨sampleNoStw, false⟩).1).1.sample.props "Sensor STW" = some 0 ∧
    (some 11 : Option Rat) ≠ some 1.0057649 := by
  refine ⟨rfl, by decide, by decide, rfl, sampleNoStw_estimate, rfl, rfl, ?_⟩
  simp only [ne_eq, Option.some.injEq]
  norm_num

/-- C22, amended: the two rules for issue NAUT-1860 are rules 6 and 7 of the
catalog and their guards are the first two that `CleanupFuncs` returns for the
post stage. On a sample of ship 1 timestamped after 2018-03-01 00:00 UTC and
before `now`: when `SpeedThroughWater` is present and the estimator returns
the present value `m`, the guards in catalog order leave `SensorSTW` at the
first `SpeedThroughWater`, `ModeledSTW` at `m` and `SpeedThroughWater` at `m`;
when the earlier `ModeledSTW` is present, the guards in the reverse order
leave `SpeedThroughWater` at that earlier value; with both, the two orders end
in different samples when the earlier value is not `m`. The three labels are
distinct and the estimator does not read `SensorSTW`. -/
theorem naut1860_order (X : Externals) (now1 now2 : Time) (pc : PropertyCalc)
    (hShip : pc.GetShip.ID = 1)
    (hAfter : (parseTime 2018 3 1 0 0 0).ns < pc.Time.ns)
    (hNow1 : pc.Time.ns < now1.ns) (hNow2 : pc.Time.ns < now2.ns)
    (hSensorInput : X.labels.SensorSTW ∉ requiredInputs X.labels)
    (hSM : X.labels.SensorSTW ≠ X.labels.ModeledSTW)
    (hSW : X.labels.SensorSTW ≠ X.labels.SpeedThroughWater)
    (hMW : X.labels.ModeledSTW ≠ X.labels.SpeedThroughWater) :
    (cleanupFuncs X)[6]? = some (ruleSensorSTW X) ∧
    (cleanupFuncs X)[7]? = some (ruleModeledSTW X) ∧
    (∃ gs, CleanupFuncs (cleanupFuncs X) PostVesselAnatomyStage true = Except.ok gs ∧
      gs[0]? = some (ruleSensorSTW X).guard ∧ gs[1]? = some (ruleModeledSTW X).guard) ∧
    (∀ (stw m : Rat) (pc2 : Sample),
      pc.sample.props X.labels.SpeedThroughWater = some stw →
      copernicusModeledSTW X.labels X.cos pc.sample = Except.ok (some m, pc2) →
      ((ruleModeledSTW X).guard now2 ((ruleSensorSTW X).guard now1 pc).1).1.sample.props
          X.labels.SensorSTW = some stw ∧
        ((ruleModeledSTW X).guard now2 ((ruleSensorSTW X).guard now1 pc).1).1.sample.props
          X.labels.ModeledSTW = some m ∧
        ((ruleModeledSTW X).guard now2 ((ruleSensorSTW X).guard now1 pc).1).1.sample.props
          X.labels.SpeedThroughWater = some m) ∧
    (∀ earlier : Rat, pc.sample.props X.labels.ModeledSTW = some earlier →
      ((ruleSensorSTW X).guard now2 ((ruleModeledSTW X).guard now1 pc).1).1.sample.props
        X.labels.SpeedThroughWater = some earlier) ∧
    (∀ (stw m earlier : Rat) (pc2 : Sample),
      pc.sample.props X.labels.SpeedThroughWater = some stw →
      copernicusModeledSTW X.labels X.cos pc.sample = Except.ok (some m, pc2) →
      pc.sample.props X.labels.ModeledSTW = some earlier → earlier ≠ m →
      ((ruleModeledSTW X).guard now2 ((ruleSensorSTW X).guard now1 pc).1).1.sample ≠
        ((ruleSensorSTW X).guard now2 ((ruleModeledSTW X).guard now1 pc).1).1.sample) := by
  have hZero : (0 : Int) < pc.Time.ns := lt_trans (by decide) hAfter
  -- catalog order
  have hIn : ∀ (stw m : Rat) (pc2 : Sample),
      pc.sample.props X.labels.SpeedThroughWater = some stw →
      copernicusModeledSTW X.labels X.cos pc.sample = Except.ok (some m, pc2) →
      ((ruleModeledSTW X).guard now2 ((ruleSensorSTW X).guard now1 pc).1).1.sample =
        ((pc.sample.SetProperty X.labels.SensorSTW stw).SetProperty X.labels.ModeledSTW
          m).SetProperty X.labels.SpeedThroughWater m := by
    intro stw m pc2 hStw hEst
    have hA1 : ((ruleSensorSTW X).guard now1 pc).1 =
        ⟨calcFuncSensorSTW X.labels X.cos pc.sample, pc.bulkClear⟩ :=
      guard_calc_only (ruleSensorSTW X) now1 pc _ rfl rfl hShip ⟨hZero, hNow1⟩
    rw [calcFuncSensorSTW_of_present X.labels X.cos pc.sample pc2 stw m hStw hEst hSensorInput]
      at hA1
    rw [hA1, guard_calc_only (ruleModeledSTW X) now2
      ⟨(pc.sample.SetProperty X.labels.SensorSTW stw).SetProperty X.labels.ModeledSTW m,
        pc.bulkClear⟩ _ rfl rfl hShip ⟨hAfter, hNow2⟩]
    exact calcFuncModeledSTW_of_present X.labels _ m (SetProperty_props_same _ _ _)
  -- reverse order
  have hRev : ∀ earlier : Rat, pc.sample.props X.labels.ModeledSTW = some earlier →
      ((ruleSensorSTW X).guard now2 ((ruleModeledSTW X).guard now1 pc).1).1.sample.props
        X.labels.SpeedThroughWater = some earlier := by
    intro earlier hEarlier
    have hB1 : ((ruleModeledSTW X).guard now1 pc).1 =
        ⟨calcFuncModeledSTW X.labels pc.sample, pc.bulkClear⟩ :=
      guard_calc_only (ruleModeledSTW X) now1 pc _ rfl rfl hShip ⟨hAfter, hNow1⟩
    rw [calcFuncModeledSTW_of_present X.labels pc.sample earlier hEarlier] at hB1
    rw [hB1, guard_calc_only (ruleSensorSTW X) now2
      ⟨pc.sample.SetProperty X.labels.SpeedThroughWater earlier, pc.bulkClear⟩ _ rfl rfl hShip
      ⟨hZero, hNow2⟩]
    rw [calcFuncSensorSTW_props_other X.labels X.cos _ _ hSW.symm hMW.symm]
    exact SetProperty_props_same _ _ _
  refine ⟨rfl, rfl, ⟨_, CleanupFuncs_catalog X _ _, rfl, rfl⟩, ?_, hRev, ?_⟩
  · intro stw m pc2 hStw hEst
    rw [hIn stw m pc2 hStw hEst]
    refine ⟨?_, ?_, SetProperty_props_same _ _ _⟩
    · rw [SetProperty_props_of_ne _ _ _ _ hSW, SetProperty_props_of_ne _ _ _ _ hSM]
      exact SetProperty_props_same _ _ _
    · rw [SetProperty_props_of_ne _ _ _ _ hMW]
      exact SetProperty_props_same _ _ _
  · intro stw m earlier pc2 hStw hEst hEarlier hne hEq
    have h := congrArg (fun s : Sample => s.props X.labels.SpeedThroughWater) hEq
    simp only at h
    rw [hRev earlier hEarlier, hIn stw m pc2 hStw hEst, SetProperty_props_same] at h
    exact hne (Option.some.inj h).symm

theorem sampleStw_estimate :
    ∃ m, copernicusModeledSTW labelsA cosA sampleStw = Except.ok (some m, sampleStw) := by
  have hc : (sampleStw.err ||
      (requiredInputs labelsA).any fun l => (sampleStw.props l).isNone) = false := rfl
  have h := copernicusModeledSTW_eq labelsA cosA sampleStw
  rw [hc] at h
  simp only [Bool.false_eq_true, if_false] at h
  exact ⟨_, h⟩

theorem naut1860_order_witness :
    (∃ m, ((ruleModeledSTW externalsA).guard (parseTime 2020 1 1 0 0 0)
        ((ruleSensorSTW externalsA).guard (parseTime 2020 1 1 0 0 0)
          ⟨sampleStw, false⟩).1).1.sample.props "Speed Through Water" = some m) ∧
      ((ruleSensorSTW externalsA).guard (parseTime 2020 1 1 0 0 0)
        ((ruleModeledSTW externalsA).guard (parseTime 2020 1 1 0 0 0)
          ⟨sampleStw, false⟩).1).1.sample.props "Speed Through Water" = some 11 ∧
      ((ruleSensorSTW externalsA).guard (parseTime 2020 1 1 0 0 0)
        ((ruleModeledSTW externalsA).guard (parseTime 2020 1 1 0 0 0)
          ⟨sampleNoStw, false⟩).1).1.sample.props "Speed Through Water" = some 11 := by
  obtain ⟨m, hm⟩ := sampleStw_estimate
  have h := naut1860_order externalsA (parseTime 2020 1 1 0 0 0) (parseTime 2020 1 1 0 0 0)
    ⟨sampleStw, false⟩ rfl (by decide) (by decide) (by decide)
    (by decide) (by decide) (by decide) (by decide)
  have h2 := naut1860_order externalsA (parseTime 2020 1 1 0 0 0) (parseTime 2020 1 1 0 0 0)
    ⟨sampleNoStw, false⟩ rfl (by decide) (by decide) (by decide)
    (by decide) (by decide) (by decide) (by decide)
  exact ⟨⟨m, (h.2.2.2.1 12 m sampleStw rfl hm).2.2⟩, h.2.2.2.2.1 11 rfl,
    h2.2.2.2.2.1 11 rfl⟩

/-! ## Algebra of the position primitives -/

theorem flip_flip (c x : Rat) :
    (if c < 0 ∧ (if c < 0 ∧ x > 0 then -x else x) > 0
      then -(if c < 0 ∧ x > 0 then -x else x) else (if c < 0 ∧ x > 0 then -x else x)) =
      (if c < 0 ∧ x > 0 then -x else x) := by
  by_cases h : c < 0 ∧ x > 0
  · rw [if_pos h]
    have hn : ¬ (c < 0 ∧ -x > 0) := fun h2 => by linarith [h.2, h2.2]
    rw [if_neg hn]
  · rw [if_neg h, if_neg h]

/-- C31: `OverrideLatLonSign` is idempotent: on every sample a second
application returns the sample the first one returned, position and
properties included. -/
theorem OverrideLatLonSign_idempotent (pc : Sample) :
    OverrideLatLonSign (OverrideLatLonSign pc) = OverrideLatLonSign pc ∧
    (OverrideLatLonSign (OverrideLatLonSign pc)).position = (OverrideLatLonSign pc).position ∧
    ∀ label, (OverrideLatLonSign (OverrideLatLonSign pc)).props label =
      (OverrideLatLonSign pc).props label := by
  have h : OverrideLatLonSign (OverrideLatLonSign pc) = OverrideLatLonSign pc := by
    cases hLat : pc.props "(Noon) Latitude" with
    | none =>
      have h0 := OverrideLatLonSign_of_absent pc (Or.inl hLat)
      rw [h0, h0]
    | some noonLat =>
      cases hLon : pc.props "(Noon) Longitude" with
      | none =>
        have h0 := OverrideLatLonSign_of_absent pc (Or.inr (Or.inl hLon))
        rw [h0, h0]
      | some noonLon =>
        cases hPos : pc.position with
        | none =>
          have h0 := OverrideLatLonSign_of_absent pc (Or.inr (Or.inr hPos))
          rw [h0, h0]
        | some p =>
          obtain ⟨lat, lon⟩ := p
          have h1 := OverrideLatLonSign_of_present pc noonLat noonLon lat lon hLat hLon hPos
          have h2 := OverrideLatLonSign_of_present
            { pc with position := some ⟨if noonLat < 0 ∧ lat > 0 then -lat else lat,
                        if noonLon < 0 ∧ lon > 0 then -lon else lon⟩ }
            noonLat noonLon _ _ hLat hLon rfl
          rw [h1, h2]
          simp only [flip_flip]
  exact ⟨h, by rw [h], fun label => by rw [h]⟩

/-- C32: `NegateLatitude` applied twice returns the sample it started from: on
a sample with the position `(lat, lon)` the position is `(lat, lon)` again, and
no named property changes in the first or in the second application. -/
theorem NegateLatitude_involution (pc : Sample) :
    (∀ lat lon, pc.position = some ⟨lat, lon⟩ →
      (NegateLatitude pc).position = some ⟨-lat, lon⟩ ∧
      (NegateLatitude (NegateLatitude pc)).position = some ⟨lat, lon⟩) ∧
    NegateLatitude (NegateLatitude pc) = pc ∧
    (∀ label, (NegateLatitude pc).props label = pc.props label) ∧
    (∀ label, (NegateLatitude (NegateLatitude pc)).props label =
      (NegateLatitude pc).props label) := by
  have hOnce : ∀ (s : Sample) (lat lon : Rat), s.position = some ⟨lat, lon⟩ →
      NegateLatitude s = { s with position := some ⟨-lat, lon⟩ } := by
    intro s lat lon h
    simp [NegateLatitude, Sample.Position, Sample.SetPosition, h]
  have hNone : ∀ s : Sample, s.position = none → NegateLatitude s = s := by
    intro s h
    simp [NegateLatitude, Sample.Position, h]
  have hTwice : NegateLatitude (NegateLatitude pc) = pc := by
    cases hPos : pc.position with
    | none => rw [hNone pc hPos, hNone pc hPos]
    | some p =>
      obtain ⟨lat, lon⟩ := p
      rw [hOnce pc lat lon hPos, hOnce _ (-lat) lon rfl]
      cases pc
      simp only at hPos
      simp [hPos]
  have hProps : ∀ (s : Sample) (label : String),
      (NegateLatitude s).props label = s.props label := by
    intro s label
    cases hPos : s.position with
    | none => rw [hNone s hPos]
    | some p =>
      obtain ⟨lat, lon⟩ := p
      rw [hOnce s lat lon hPos]
  refine ⟨?_, hTwice, hProps pc, fun label => hProps _ label⟩
  intro lat lon hPos
  constructor
  · rw [hOnce pc lat lon hPos]
  · rw [hTwice, hPos]

theorem NegateLatitude_involution_witness :
    (NegateLatitude sampleA).position = some ⟨-12.5, -70.2⟩ ∧
      (NegateLatitude (NegateLatitude sampleA)).position = some ⟨12.5, -70.2⟩ :=
  (NegateLatitude_involution sampleA).1 12.5 (-70.2) rfl

/-! ## Windows of the shipped catalog -/

theorem cleanupFuncs_all_windows (X : Externals) :
    ((cleanupFuncs X).all fun c =>
      c.Start.IsZero || c.End.IsZero || decide (c.Start.ns + 1 < c.End.ns)) = true := rfl

/-- C33: every rule of the shipped catalog with a concrete `Start` and a
concrete `End` has `Start` strictly before `End`; its window is not empty: at
the instant one nanosecond after `Start` the guard matches a sample of the
rule's ship. -/
theorem cleanupFuncs_windows (X : Externals) (c : CleanupFunc) (hc : c ∈ cleanupFuncs X)
    (hStart : c.Start.IsZero = false) (hEnd : c.End.IsZero = false) :
    c.Start.ns < c.End.ns ∧
    (c.Start.Before c.End = true) ∧
    ∀ (now : Time) (pc : PropertyCalc), pc.GetShip.ID = c.ShipID → pc.Time = c.Start.Add 1 →
      c.guard now pc = c.applyFuncs pc := by
  have h := List.all_eq_true.mp (cleanupFuncs_all_windows X) c hc
  rw [hStart, hEnd] at h
  simp only [Bool.false_or, decide_eq_true_eq] at h
  refine ⟨by omega, by simp only [Time.Before, decide_eq_true_eq]; omega, ?_⟩
  intro now pc hShip hTime
  apply guard_of_window c now pc hShip
  rw [endTime_of_concrete c now hEnd, hTime]
  simp only [Time.Add]
  constructor <;> omega

theorem cleanupFuncs_windows_witness :
    ∃ c ∈ cleanupFuncs externalsA, c.Issue = "NAUT-1439" ∧ c.Start.ns < c.End.ns := by
  have hMem : (cleanupFuncs externalsA)[0] ∈ cleanupFuncs externalsA :=
    List.getElem_mem _
  exact ⟨_, hMem, rfl,
    (cleanupFuncs_windows externalsA (cleanupFuncs externalsA)[0] hMem rfl rfl).1⟩

end Cleanup
